import Mathlib

/-!
Shallow embedding of `packages/hoppscotch-common/src/services/new-workspace/index.ts`
(the `NewWorkspaceService` dispatch layer) and the auxiliary types it imports.

Modelling conventions:
* Vue `Ref` / `shallowRef` / `computed` cells are collapsed to their current
  value; a service method is a pure function of the service state (its `this`)
  that returns the post-state explicitly, together with its result.
* A JavaScript `Promise` that settles with an `Either` value is modelled by the
  result field `Option (Except _ _)`: `some r` is a fulfilled promise, `none` is
  a rejected promise (a thrown `TypeError`).
* Each `await provider.method(...)` call site additionally records a
  `MethodCall` in the `calls` trace, so that "which provider method was
  invoked" is expressible.
* A JS `Map` is modelled by an insertion-ordered association list; `Map.get`
  is `List.lookup`, `Map.set` of a fresh key appends at the end, which is the
  only way `registerWorkspaceProvider` ever inserts.
* `Array.prototype.sort` (required stable by ES2019) is `List.mergeSort`.
-/

/-- Modelled from the spec: Vue `Component` values (from `vue`) are opaque
payloads for this service; they are carried as an identifier. -/
abbrev Component := String

/-- Modelled from the spec: the provider-side error values have TypeScript type
`unknown`; they are opaque payloads, carried as strings. -/
abbrev ProviderErr := String

/-- Modelled from the spec: `UpdatedCollectionProperties` (from `./provider`,
not under `src/`) is an opaque payload forwarded verbatim to the provider. -/
abbrev UpdatedCollectionProperties := String

/-- Modelled from the spec: `HoppRESTRequest` (from `@hoppscotch/data`) is an
opaque payload forwarded verbatim to the provider. -/
abbrev HoppRESTRequest := String

/-- Modelled from the spec: `RESTCollectionChildrenView` (from `./view`, not
under `src/`) is an opaque payload produced by the provider. -/
abbrev RESTCollectionChildrenView := String

/-- Modelled from the spec: `RootRESTCollectionView` (from `./view`, not under
`src/`) is an opaque payload produced by the provider. -/
abbrev RootRESTCollectionView := String

/-- Modelled from the spec: `HandleRef` (from `./handle`, not under `src/`) is
"an observable reference cell wrapping either a resolved value, an error, or an
invalidated marker".  The reference cell is collapsed to its wrapped value, so
this type is the state wrapped by a `HandleRef` at one instant: the resolved
value carries the domain `data`, the error alternative carries an error, and
the invalidated marker carries nothing. -/
inductive HandleState (α : Type) : Type where
  | ok (data : α)
  | error (error : ProviderErr)
  | invalid
  deriving DecidableEq, Repr

/-- Modelled from the spec: the `Workspace` domain datum (from `./workspace`,
not under `src/`).  The service only reads its `providerID` (the provider
metadata the spec says is embedded in the handle); a `workspaceID` is kept so
distinct workspaces exist. -/
structure Workspace : Type where
  providerID : String
  workspaceID : String
  deriving DecidableEq, Repr

/-- Modelled from the spec: the `WorkspaceCollection` domain datum (from
`./workspace`, not under `src/`); the service only reads `providerID`. -/
structure WorkspaceCollection : Type where
  providerID : String
  workspaceID : String
  collectionID : String
  deriving DecidableEq, Repr

/-- Modelled from the spec: the `WorkspaceRequest` domain datum (from
`./workspace`, not under `src/`); the service only reads `providerID`. -/
structure WorkspaceRequest : Type where
  providerID : String
  workspaceID : String
  collectionID : String
  requestID : String
  deriving DecidableEq, Repr

/-- Modelled from the spec: the decoration record a provider may expose (from
`./provider`, not under `src/`).  `index.ts` reads exactly two fields from it:
`workspaceSelectorPriority` (guarded by `?? 0`, so it may be absent) and
`workspaceSelectorComponent` (guarded by optional chaining, so it may be
absent). -/
structure WorkspaceDecor : Type where
  workspaceSelectorPriority : Option Int
  workspaceSelectorComponent : Option Component
  deriving DecidableEq, Repr

/-- Modelled from the spec: a `WorkspaceProvider` (from `./provider`, not under
`src/`) "implements the actual CRUD operations"; it is an external collaborator
with a `providerID`, an optional decoration ref, and one method per service
operation.  Each method is modelled as a pure function from the arguments the
service passes to the `Either` its promise settles with. -/
structure WorkspaceProvider : Type where
  providerID : String
  workspaceDecor : Option WorkspaceDecor
  getWorkspaceHandle : String → Except ProviderErr (HandleState Workspace)
  getCollectionHandle :
    HandleState Workspace → String → Except ProviderErr (HandleState WorkspaceCollection)
  getRequestHandle :
    HandleState WorkspaceCollection → String → Except ProviderErr (HandleState WorkspaceRequest)
  createRESTRootCollection :
    HandleState Workspace → String → Except ProviderErr (HandleState WorkspaceCollection)
  createRESTChildCollection :
    HandleState WorkspaceCollection → String → Except ProviderErr (HandleState WorkspaceCollection)
  editRESTRootCollection :
    HandleState WorkspaceCollection → String → Except ProviderErr (HandleState WorkspaceCollection)
  editRESTChildCollection :
    HandleState WorkspaceCollection → String → Except ProviderErr (HandleState WorkspaceCollection)
  editRESTCollectionProperties :
    HandleState WorkspaceCollection → UpdatedCollectionProperties →
      Except ProviderErr (HandleState WorkspaceCollection)
  removeRESTRootCollection :
    HandleState WorkspaceCollection → Except ProviderErr (HandleState WorkspaceCollection)
  removeRESTChildCollection :
    HandleState WorkspaceCollection → Except ProviderErr (HandleState WorkspaceCollection)
  createRESTRequest :
    HandleState WorkspaceCollection → String → Except ProviderErr (HandleState WorkspaceCollection)
  removeRESTRequest :
    HandleState WorkspaceRequest → Except ProviderErr (HandleState WorkspaceRequest)
  editRESTRequest :
    HandleState WorkspaceRequest → String → Except ProviderErr (HandleState WorkspaceRequest)
  saveRESTRequest :
    HandleState WorkspaceRequest → HoppRESTRequest → Except ProviderErr (HandleState WorkspaceRequest)
  getRESTCollectionChildrenView :
    HandleState WorkspaceCollection → Except ProviderErr (HandleState RESTCollectionChildrenView)
  getRESTRootCollectionView :
    HandleState Workspace → Except ProviderErr (HandleState RootRESTCollectionView)

/-- The service-side error payloads of `index.ts`: the string literals
`"INVALID_HANDLE"` and `"INVALID_PROVIDER"`. -/
inductive ServiceErr : Type where
  | INVALID_HANDLE
  | INVALID_PROVIDER
  deriving DecidableEq, Repr

/-- Source `index.ts` lines 18-20: `WorkspaceError<ServiceErr>` is a tagged
union of a `SERVICE_ERROR` carrying a service error and a `PROVIDER_ERROR`
carrying a provider error (`unknown` in TypeScript). -/
inductive WorkspaceError (ε : Type) : Type where
  | serviceError (error : ε)
  | providerError (error : ProviderErr)
  deriving DecidableEq, Repr

/-- Names of the `WorkspaceProvider` methods, used to record which provider
method a service operation awaited. -/
inductive MethodName : Type where
  | getWorkspaceHandle
  | getCollectionHandle
  | getRequestHandle
  | createRESTRootCollection
  | createRESTChildCollection
  | editRESTRootCollection
  | editRESTChildCollection
  | editRESTCollectionProperties
  | removeRESTRootCollection
  | removeRESTChildCollection
  | createRESTRequest
  | removeRESTRequest
  | editRESTRequest
  | saveRESTRequest
  | getRESTCollectionChildrenView
  | getRESTRootCollectionView
  deriving DecidableEq, Repr

/-- A record of one awaited provider call: the registry key under which the
provider was found (the provider ID embedded in the handle, or passed directly
to `getWorkspaceHandle`) and the method invoked on it. -/
structure MethodCall : Type where
  providerID : String
  method : MethodName
  deriving DecidableEq, Repr

/-- The state of a `NewWorkspaceService` instance: its `registeredProviders`
map (insertion-ordered association list) and its `activeWorkspaceHandle` ref
(collapsed to the handle state it currently wraps, `none` = `undefined`). -/
structure NewWorkspaceService : Type where
  registeredProviders : List (String × WorkspaceProvider)
  activeWorkspaceHandle : Option (HandleState Workspace)

/-- Outcome of running one service method: the post-state of the service
instance, the settled result of the returned promise (`none` = the promise
rejected because the method threw), and the trace of awaited provider calls. -/
structure OpResult (α : Type) : Type where
  state : NewWorkspaceService
  result : Option (Except (WorkspaceError ServiceErr) α)
  calls : List MethodCall

/-- Fresh service instance: `registeredProviders` starts as an empty map and
`activeWorkspaceHandle` as `shallowRef()`, i.e. `undefined`. -/
def NewWorkspaceService.init : NewWorkspaceService :=
  { registeredProviders := [], activeWorkspaceHandle := none }

/-- Source lines 85-106, `getWorkspaceHandle(providerID, workspaceID)`: look
the provider up by the given ID; absent provider gives
`Left SERVICE_ERROR INVALID_PROVIDER`; otherwise await the provider's
`getWorkspaceHandle` and unwrap its `Either`. -/
def NewWorkspaceService.getWorkspaceHandle (s : NewWorkspaceService)
    (providerID workspaceID : String) : OpResult (HandleState Workspace) :=
  match s.registeredProviders.lookup providerID with
  | none => ⟨s, some (.error (.serviceError .INVALID_PROVIDER)), []⟩
  | some provider =>
    match provider.getWorkspaceHandle workspaceID with
    | .error e => ⟨s, some (.error (.providerError e)), [⟨providerID, .getWorkspaceHandle⟩]⟩
    | .ok v => ⟨s, some (.ok v), [⟨providerID, .getWorkspaceHandle⟩]⟩

/-- Source lines 108-139, `getCollectionHandle(workspaceHandle, collectionID)`:
an invalidated handle gives `Left SERVICE_ERROR INVALID_HANDLE`; otherwise the
method reads `workspaceHandle.value.data.providerID` — on the error alternative
of the handle state there is no `data` member, so that member access throws and
the promise rejects (`result = none`); with the embedded provider ID it looks
the provider up (absent gives `Left SERVICE_ERROR INVALID_PROVIDER`), awaits
the provider's `getCollectionHandle` and unwraps its `Either`. -/
def NewWorkspaceService.getCollectionHandle (s : NewWorkspaceService)
    (workspaceHandle : HandleState Workspace) (collectionID : String) :
    OpResult (HandleState WorkspaceCollection) :=
  match workspaceHandle with
  | .invalid => ⟨s, some (.error (.serviceError .INVALID_HANDLE)), []⟩
  | .error _ => ⟨s, none, []⟩
  | .ok data =>
    match s.registeredProviders.lookup data.providerID with
    | none => ⟨s, some (.error (.serviceError .INVALID_PROVIDER)), []⟩
    | some provider =>
      match provider.getCollectionHandle (.ok data) collectionID with
      | .error e =>
        ⟨s, some (.error (.providerError e)), [⟨data.providerID, .getCollectionHandle⟩]⟩
      | .ok v => ⟨s, some (.ok v), [⟨data.providerID, .getCollectionHandle⟩]⟩

/-- Source lines 141-169, `getRequestHandle(parentCollHandle, requestID)`: same
validate / look up / dispatch / unwrap pattern as `getCollectionHandle`. -/
def NewWorkspaceService.getRequestHandle (s : NewWorkspaceService)
    (parentCollHandle : HandleState WorkspaceCollection) (requestID : String) :
    OpResult (HandleState WorkspaceRequest) :=
  match parentCollHandle with
  | .invalid => ⟨s, some (.error (.serviceError .INVALID_HANDLE)), []⟩
  | .error _ => ⟨s, none, []⟩
  | .ok data =>
    match s.registeredProviders.lookup data.providerID with
    | none => ⟨s, some (.error (.serviceError .INVALID_PROVIDER)), []⟩
    | some provider =>
      match provider.getRequestHandle (.ok data) requestID with
      | .error e =>
        ⟨s, some (.error (.providerError e)), [⟨data.providerID, .getRequestHandle⟩]⟩
      | .ok v => ⟨s, some (.ok v), [⟨data.providerID, .getRequestHandle⟩]⟩

/-- Source lines 171-202, `createRESTRootCollection(workspaceHandle,
collectionName)`: validate / look up / dispatch / unwrap. -/
def NewWorkspaceService.createRESTRootCollection (s : NewWorkspaceService)
    (workspaceHandle : HandleState Workspace) (collectionName : String) :
    OpResult (HandleState WorkspaceCollection) :=
  match workspaceHandle with
  | .invalid => ⟨s, some (.error (.serviceError .INVALID_HANDLE)), []⟩
  | .error _ => ⟨s, none, []⟩
  | .ok data =>
    match s.registeredProviders.lookup data.providerID with
    | none => ⟨s, some (.error (.serviceError .INVALID_PROVIDER)), []⟩
    | some provider =>
      match provider.createRESTRootCollection (.ok data) collectionName with
      | .error e =>
        ⟨s, some (.error (.providerError e)), [⟨data.providerID, .createRESTRootCollection⟩]⟩
      | .ok v => ⟨s, some (.ok v), [⟨data.providerID, .createRESTRootCollection⟩]⟩

/-- Source lines 204-235, `createRESTChildCollection(parentCollHandle,
collectionName)`: validate / look up / dispatch / unwrap. -/
def NewWorkspaceService.createRESTChildCollection (s : NewWorkspaceService)
    (parentCollHandle : HandleState WorkspaceCollection) (collectionName : String) :
    OpResult (HandleState WorkspaceCollection) :=
  match parentCollHandle with
  | .invalid => ⟨s, some (.error (.serviceError .INVALID_HANDLE)), []⟩
  | .error _ => ⟨s, none, []⟩
  | .ok data =>
    match s.registeredProviders.lookup data.providerID with
    | none => ⟨s, some (.error (.serviceError .INVALID_PROVIDER)), []⟩
    | some provider =>
      match provider.createRESTChildCollection (.ok data) collectionName with
      | .error e =>
        ⟨s, some (.error (.providerError e)), [⟨data.providerID, .createRESTChildCollection⟩]⟩
      | .ok v => ⟨s, some (.ok v), [⟨data.providerID, .createRESTChildCollection⟩]⟩

/-- Source lines 237-268, `editRESTRootCollection(collHandle,
newCollectionName)`: validate / look up / dispatch / unwrap. -/
def NewWorkspaceService.editRESTRootCollection (s : NewWorkspaceService)
    (collHandle : HandleState WorkspaceCollection) (newCollectionName : String) :
    OpResult (HandleState WorkspaceCollection) :=
  match collHandle with
  | .invalid => ⟨s, some (.error (.serviceError .INVALID_HANDLE)), []⟩
  | .error _ => ⟨s, none, []⟩
  | .ok data =>
    match s.registeredProviders.lookup data.providerID with
    | none => ⟨s, some (.error (.serviceError .INVALID_PROVIDER)), []⟩
    | some provider =>
      match provider.editRESTRootCollection (.ok data) newCollectionName with
      | .error e =>
        ⟨s, some (.error (.providerError e)), [⟨data.providerID, .editRESTRootCollection⟩]⟩
      | .ok v => ⟨s, some (.ok v), [⟨data.providerID, .editRESTRootCollection⟩]⟩

/-- Source lines 270-301, `editRESTChildCollection(collHandle,
newCollectionName)`: validate / look up / dispatch / unwrap. -/
def NewWorkspaceService.editRESTChildCollection (s : NewWorkspaceService)
    (collHandle : HandleState WorkspaceCollection) (newCollectionName : String) :
    OpResult (HandleState WorkspaceCollection) :=
  match collHandle with
  | .invalid => ⟨s, some (.error (.serviceError .INVALID_HANDLE)), []⟩
  | .error _ => ⟨s, none, []⟩
  | .ok data =>
    match s.registeredProviders.lookup data.providerID with
    | none => ⟨s, some (.error (.serviceError .INVALID_PROVIDER)), []⟩
    | some provider =>
      match provider.editRESTChildCollection (.ok data) newCollectionName with
      | .error e =>
        ⟨s, some (.error (.providerError e)), [⟨data.providerID, .editRESTChildCollection⟩]⟩
      | .ok v => ⟨s, some (.ok v), [⟨data.providerID, .editRESTChildCollection⟩]⟩

/-- Source lines 303-334, `editRESTCollectionProperties(collHandle,
updatedCollProps)`: validate / look up / dispatch / unwrap. -/
def NewWorkspaceService.editRESTCollectionProperties (s : NewWorkspaceService)
    (collHandle : HandleState WorkspaceCollection)
    (updatedCollProps : UpdatedCollectionProperties) :
    OpResult (HandleState WorkspaceCollection) :=
  match collHandle with
  | .invalid => ⟨s, some (.error (.serviceError .INVALID_HANDLE)), []⟩
  | .error _ => ⟨s, none, []⟩
  | .ok data =>
    match s.registeredProviders.lookup data.providerID with
    | none => ⟨s, some (.error (.serviceError .INVALID_PROVIDER)), []⟩
    | some provider =>
      match provider.editRESTCollectionProperties (.ok data) updatedCollProps with
      | .error e =>
        ⟨s, some (.error (.providerError e)),
          [⟨data.providerID, .editRESTCollectionProperties⟩]⟩
      | .ok v => ⟨s, some (.ok v), [⟨data.providerID, .editRESTCollectionProperties⟩]⟩

/-- Source lines 336-363, `removeRESTRootCollection(collHandle)`: validate /
look up / dispatch / unwrap. -/
def NewWorkspaceService.removeRESTRootCollection (s : NewWorkspaceService)
    (collHandle : HandleState WorkspaceCollection) :
    OpResult (HandleState WorkspaceCollection) :=
  match collHandle with
  | .invalid => ⟨s, some (.error (.serviceError .INVALID_HANDLE)), []⟩
  | .error _ => ⟨s, none, []⟩
  | .ok data =>
    match s.registeredProviders.lookup data.providerID with
    | none => ⟨s, some (.error (.serviceError .INVALID_PROVIDER)), []⟩
    | some provider =>
      match provider.removeRESTRootCollection (.ok data) with
      | .error e =>
        ⟨s, some (.error (.providerError e)), [⟨data.providerID, .removeRESTRootCollection⟩]⟩
      | .ok v => ⟨s, some (.ok v), [⟨data.providerID, .removeRESTRootCollection⟩]⟩

/-- Source lines 365-392, `removeRESTChildCollection(parentCollHandle)`:
validate / look up / dispatch / unwrap. -/
def NewWorkspaceService.removeRESTChildCollection (s : NewWorkspaceService)
    (parentCollHandle : HandleState WorkspaceCollection) :
    OpResult (HandleState WorkspaceCollection) :=
  match parentCollHandle with
  | .invalid => ⟨s, some (.error (.serviceError .INVALID_HANDLE)), []⟩
  | .error _ => ⟨s, none, []⟩
  | .ok data =>
    match s.registeredProviders.lookup data.providerID with
    | none => ⟨s, some (.error (.serviceError .INVALID_PROVIDER)), []⟩
    | some provider =>
      match provider.removeRESTChildCollection (.ok data) with
      | .error e =>
        ⟨s, some (.error (.providerError e)), [⟨data.providerID, .removeRESTChildCollection⟩]⟩
      | .ok v => ⟨s, some (.ok v), [⟨data.providerID, .removeRESTChildCollection⟩]⟩

/-- Source lines 394-425, `createRESTRequest(parentCollHandle, requestName)`:
validate / look up / dispatch / unwrap (the provider returns a collection
handle here, as in the source). -/
def NewWorkspaceService.createRESTRequest (s : NewWorkspaceService)
    (parentCollHandle : HandleState WorkspaceCollection) (requestName : String) :
    OpResult (HandleState WorkspaceCollection) :=
  match parentCollHandle with
  | .invalid => ⟨s, some (.error (.serviceError .INVALID_HANDLE)), []⟩
  | .error _ => ⟨s, none, []⟩
  | .ok data =>
    match s.registeredProviders.lookup data.providerID with
    | none => ⟨s, some (.error (.serviceError .INVALID_PROVIDER)), []⟩
    | some provider =>
      match provider.createRESTRequest (.ok data) requestName with
      | .error e =>
        ⟨s, some (.error (.providerError e)), [⟨data.providerID, .createRESTRequest⟩]⟩
      | .ok v => ⟨s, some (.ok v), [⟨data.providerID, .createRESTRequest⟩]⟩

/-- Source lines 427-454, `removeRESTRequest(requestHandle)`: validate /
look up / dispatch / unwrap. -/
def NewWorkspaceService.removeRESTRequest (s : NewWorkspaceService)
    (requestHandle : HandleState WorkspaceRequest) :
    OpResult (HandleState WorkspaceRequest) :=
  match requestHandle with
  | .invalid => ⟨s, some (.error (.serviceError .INVALID_HANDLE)), []⟩
  | .error _ => ⟨s, none, []⟩
  | .ok data =>
    match s.registeredProviders.lookup data.providerID with
    | none => ⟨s, some (.error (.serviceError .INVALID_PROVIDER)), []⟩
    | some provider =>
      match provider.removeRESTRequest (.ok data) with
      | .error e =>
        ⟨s, some (.error (.providerError e)), [⟨data.providerID, .removeRESTRequest⟩]⟩
      | .ok v => ⟨s, some (.ok v), [⟨data.providerID, .removeRESTRequest⟩]⟩

/-- Source lines 456-484, `editRESTRequest(requestHandle, newRequestName)`:
validate / look up / dispatch / unwrap. -/
def NewWorkspaceService.editRESTRequest (s : NewWorkspaceService)
    (requestHandle : HandleState WorkspaceRequest) (newRequestName : String) :
    OpResult (HandleState WorkspaceRequest) :=
  match requestHandle with
  | .invalid => ⟨s, some (.error (.serviceError .INVALID_HANDLE)), []⟩
  | .error _ => ⟨s, none, []⟩
  | .ok data =>
    match s.registeredProviders.lookup data.providerID with
    | none => ⟨s, some (.error (.serviceError .INVALID_PROVIDER)), []⟩
    | some provider =>
      match provider.editRESTRequest (.ok data) newRequestName with
      | .error e =>
        ⟨s, some (.error (.providerError e)), [⟨data.providerID, .editRESTRequest⟩]⟩
      | .ok v => ⟨s, some (.ok v), [⟨data.providerID, .editRESTRequest⟩]⟩

/-- Source lines 486-514, `saveRESTRequest(requestHandle, updatedRequest)`:
validate / look up / dispatch / unwrap. -/
def NewWorkspaceService.saveRESTRequest (s : NewWorkspaceService)
    (requestHandle : HandleState WorkspaceRequest) (updatedRequest : HoppRESTRequest) :
    OpResult (HandleState WorkspaceRequest) :=
  match requestHandle with
  | .invalid => ⟨s, some (.error (.serviceError .INVALID_HANDLE)), []⟩
  | .error _ => ⟨s, none, []⟩
  | .ok data =>
    match s.registeredProviders.lookup data.providerID with
    | none => ⟨s, some (.error (.serviceError .INVALID_PROVIDER)), []⟩
    | some provider =>
      match provider.saveRESTRequest (.ok data) updatedRequest with
      | .error e =>
        ⟨s, some (.error (.providerError e)), [⟨data.providerID, .saveRESTRequest⟩]⟩
      | .ok v => ⟨s, some (.ok v), [⟨data.providerID, .saveRESTRequest⟩]⟩

/-- Source lines 516-544, `getRESTCollectionChildrenView(collectionHandle)`:
validate / look up / dispatch / unwrap. -/
def NewWorkspaceService.getRESTCollectionChildrenView (s : NewWorkspaceService)
    (collectionHandle : HandleState WorkspaceCollection) :
    OpResult (HandleState RESTCollectionChildrenView) :=
  match collectionHandle with
  | .invalid => ⟨s, some (.error (.serviceError .INVALID_HANDLE)), []⟩
  | .error _ => ⟨s, none, []⟩
  | .ok data =>
    match s.registeredProviders.lookup data.providerID with
    | none => ⟨s, some (.error (.serviceError .INVALID_PROVIDER)), []⟩
    | some provider =>
      match provider.getRESTCollectionChildrenView (.ok data) with
      | .error e =>
        ⟨s, some (.error (.providerError e)),
          [⟨data.providerID, .getRESTCollectionChildrenView⟩]⟩
      | .ok v => ⟨s, some (.ok v), [⟨data.providerID, .getRESTCollectionChildrenView⟩]⟩

/-- Source lines 546-573, `getRESTRootCollectionView(workspaceHandle)`:
validate / look up / dispatch / unwrap. -/
def NewWorkspaceService.getRESTRootCollectionView (s : NewWorkspaceService)
    (workspaceHandle : HandleState Workspace) :
    OpResult (HandleState RootRESTCollectionView) :=
  match workspaceHandle with
  | .invalid => ⟨s, some (.error (.serviceError .INVALID_HANDLE)), []⟩
  | .error _ => ⟨s, none, []⟩
  | .ok data =>
    match s.registeredProviders.lookup data.providerID with
    | none => ⟨s, some (.error (.serviceError .INVALID_PROVIDER)), []⟩
    | some provider =>
      match provider.getRESTRootCollectionView (.ok data) with
      | .error e =>
        ⟨s, some (.error (.providerError e)), [⟨data.providerID, .getRESTRootCollectionView⟩]⟩
      | .ok v => ⟨s, some (.ok v), [⟨data.providerID, .getRESTRootCollectionView⟩]⟩

/-- Source lines 575-585, `registerWorkspaceProvider(provider)`: if a provider
with the same `providerID` is already present the call only warns and returns
(the map is unchanged); otherwise the provider is inserted under its
`providerID` (a fresh key, so the insertion appends in iteration order). -/
def NewWorkspaceService.registerWorkspaceProvider (s : NewWorkspaceService)
    (provider : WorkspaceProvider) : NewWorkspaceService :=
  if (s.registeredProviders.lookup provider.providerID).isSome then
    s
  else
    { s with
      registeredProviders := s.registeredProviders ++ [(provider.providerID, provider)] }

/-- Source lines 32-40, the `activeWorkspaceDecor` computed: `undefined` unless
the active workspace handle exists and wraps an `"ok"` state; otherwise it
reads the registry entry for the embedded provider ID through a non-null
assertion and returns that provider's `workspaceDecor`.  The outer `Option` is
the computation itself: `none` means the non-null assertion failed (the member
access on `undefined` threw), `some d` means the computed evaluated to `d`
(where `d : Option WorkspaceDecor` is `undefined` or the decor). -/
def NewWorkspaceService.activeWorkspaceDecor (s : NewWorkspaceService) :
    Option (Option WorkspaceDecor) :=
  match s.activeWorkspaceHandle with
  | some (.ok data) =>
    match s.registeredProviders.lookup data.providerID with
    | some provider => some provider.workspaceDecor
    | none => none
  | _ => some none

/-- Effective selector priority of a provider, as read by the comparator on
source lines 46-48: `workspaceDecor?.value.workspaceSelectorPriority ?? 0`. -/
def decorPriority (p : WorkspaceProvider) : Int :=
  (p.workspaceDecor.bind WorkspaceDecor.workspaceSelectorPriority).getD 0

/-- Source lines 42-58, the `workspaceSelectorComponents` computed: take the
registered providers in iteration (= insertion) order, stable-sort them with
the comparator `(b.pri ?? 0) - (a.pri ?? 0)` (i.e. descending effective
priority; `Array.prototype.sort` is stable), and collect the
`workspaceSelectorComponent` of every provider whose decor defines one. -/
def NewWorkspaceService.workspaceSelectorComponents (s : NewWorkspaceService) :
    List Component :=
  let sortedProviders :=
    (s.registeredProviders.map Prod.snd).mergeSort
      (fun a b => decorPriority b ≤ decorPriority a)
  sortedProviders.filterMap
    (fun workspace => workspace.workspaceDecor.bind WorkspaceDecor.workspaceSelectorComponent)

/-- Source lines 60-83, the watcher installed by the constructor: when it runs,
if there is no active workspace handle it returns; if the active handle's
wrapped state is the invalidated marker it resets `activeWorkspaceHandle` to
`undefined`; otherwise it changes nothing. -/
def NewWorkspaceService.handleInvalidationWatcher (s : NewWorkspaceService) :
    NewWorkspaceService :=
  match s.activeWorkspaceHandle with
  | none => s
  | some h =>
    match h with
    | .invalid => { s with activeWorkspaceHandle := none }
    | _ => s

/-! ### Concrete fixtures used by witnesses and counterexamples -/

/-- A concrete provider whose methods all succeed, used to instantiate the
universally quantified theorems below on concrete inputs. -/
def demoProvider (pid : String) (decor : Option WorkspaceDecor) : WorkspaceProvider where
  providerID := pid
  workspaceDecor := decor
  getWorkspaceHandle := fun wid => .ok (.ok ⟨pid, wid⟩)
  getCollectionHandle := fun _ cid => .ok (.ok ⟨pid, "w", cid⟩)
  getRequestHandle := fun _ rid => .ok (.ok ⟨pid, "w", "c", rid⟩)
  createRESTRootCollection := fun _ name => .ok (.ok ⟨pid, "w", name⟩)
  createRESTChildCollection := fun _ name => .ok (.ok ⟨pid, "w", name⟩)
  editRESTRootCollection := fun _ name => .ok (.ok ⟨pid, "w", name⟩)
  editRESTChildCollection := fun _ name => .ok (.ok ⟨pid, "w", name⟩)
  editRESTCollectionProperties := fun h _ => .ok h
  removeRESTRootCollection := fun h => .ok h
  removeRESTChildCollection := fun h => .ok h
  createRESTRequest := fun h _ => .ok h
  removeRESTRequest := fun h => .ok h
  editRESTRequest := fun h _ => .ok h
  saveRESTRequest := fun h _ => .ok h
  getRESTCollectionChildrenView := fun _ => .ok (.ok "children-view")
  getRESTRootCollectionView := fun _ => .ok (.ok "root-view")

/-- A service with one provider registered under `"local"`. -/
def demoService : NewWorkspaceService :=
  NewWorkspaceService.init.registerWorkspaceProvider (demoProvider "local" none)

/-- A concrete workspace datum whose embedded provider ID is `"local"`. -/
def demoWorkspace : Workspace := ⟨"local", "w1"⟩

/-- The demo service with an active workspace handle in the `ok` state. -/
def demoServiceActive : NewWorkspaceService :=
  { demoService with activeWorkspaceHandle := some (.ok demoWorkspace) }

/-! ### C3 -/

/-- C3: for every service operation that takes a handle, an invalidated handle
makes the operation return `Left SERVICE_ERROR INVALID_HANDLE`, leave the
service state unchanged and invoke no provider method — and this holds for
every registry whatsoever (in particular one in which no provider is
registered), so the validity check precedes the provider-registry lookup and an
invalidated handle never yields `INVALID_PROVIDER`. -/
theorem invalid_handle_short_circuits :
    (∀ (s : NewWorkspaceService) (cid : String),
      s.getCollectionHandle .invalid cid
        = ⟨s, some (.error (.serviceError .INVALID_HANDLE)), []⟩)
    ∧ (∀ (s : NewWorkspaceService) (rid : String),
      s.getRequestHandle .invalid rid
        = ⟨s, some (.error (.serviceError .INVALID_HANDLE)), []⟩)
    ∧ (∀ (s : NewWorkspaceService) (name : String),
      s.createRESTRootCollection .invalid name
        = ⟨s, some (.error (.serviceError .INVALID_HANDLE)), []⟩)
    ∧ (∀ (s : NewWorkspaceService) (name : String),
      s.createRESTChildCollection .invalid name
        = ⟨s, some (.error (.serviceError .INVALID_HANDLE)), []⟩)
    ∧ (∀ (s : NewWorkspaceService) (name : String),
      s.editRESTRootCollection .invalid name
        = ⟨s, some (.error (.serviceError .INVALID_HANDLE)), []⟩)
    ∧ (∀ (s : NewWorkspaceService) (name : String),
      s.editRESTChildCollection .invalid name
        = ⟨s, some (.error (.serviceError .INVALID_HANDLE)), []⟩)
    ∧ (∀ (s : NewWorkspaceService) (props : UpdatedCollectionProperties),
      s.editRESTCollectionProperties .invalid props
        = ⟨s, some (.error (.serviceError .INVALID_HANDLE)), []⟩)
    ∧ (∀ (s : NewWorkspaceService),
      s.removeRESTRootCollection .invalid
        = ⟨s, some (.error (.serviceError .INVALID_HANDLE)), []⟩)
    ∧ (∀ (s : NewWorkspaceService),
      s.removeRESTChildCollection .invalid
        = ⟨s, some (.error (.serviceError .INVALID_HANDLE)), []⟩)
    ∧ (∀ (s : NewWorkspaceService) (name : String),
      s.createRESTRequest .invalid name
        = ⟨s, some (.error (.serviceError .INVALID_HANDLE)), []⟩)
    ∧ (∀ (s : NewWorkspaceService),
      s.removeRESTRequest .invalid
        = ⟨s, some (.error (.serviceError .INVALID_HANDLE)), []⟩)
    ∧ (∀ (s : NewWorkspaceService) (name : String),
      s.editRESTRequest .invalid name
        = ⟨s, some (.error (.serviceError .INVALID_HANDLE)), []⟩)
    ∧ (∀ (s : NewWorkspaceService) (req : HoppRESTRequest),
      s.saveRESTRequest .invalid req
        = ⟨s, some (.error (.serviceError .INVALID_HANDLE)), []⟩)
    ∧ (∀ (s : NewWorkspaceService),
      s.getRESTCollectionChildrenView .invalid
        = ⟨s, some (.error (.serviceError .INVALID_HANDLE)), []⟩)
    ∧ (∀ (s : NewWorkspaceService),
      s.getRESTRootCollectionView .invalid
        = ⟨s, some (.error (.serviceError .INVALID_HANDLE)), []⟩) := by
  refine ⟨?_, ?_, ?_, ?_, ?_, ?_, ?_, ?_, ?_, ?_, ?_, ?_, ?_, ?_, ?_⟩ <;>
    intros <;> rfl

/-! ### C6 -/

/-- C6: every dispatch operation leaves the service state (the provider
registry and the active workspace handle) exactly as it was, for every handle
state and so for every outcome (`Right`, `SERVICE_ERROR`, `PROVIDER_ERROR`, or
a rejected promise); and `registerWorkspaceProvider` never touches
`activeWorkspaceHandle`. -/
theorem dispatch_preserves_service_state :
    (∀ (s : NewWorkspaceService) (pid wid : String),
      (s.getWorkspaceHandle pid wid).state = s)
    ∧ (∀ (s : NewWorkspaceService) (h : HandleState Workspace) (cid : String),
      (s.getCollectionHandle h cid).state = s)
    ∧ (∀ (s : NewWorkspaceService) (h : HandleState WorkspaceCollection) (rid : String),
      (s.getRequestHandle h rid).state = s)
    ∧ (∀ (s : NewWorkspaceService) (h : HandleState Workspace) (name : String),
      (s.createRESTRootCollection h name).state = s)
    ∧ (∀ (s : NewWorkspaceService) (h : HandleState WorkspaceCollection) (name : String),
      (s.createRESTChildCollection h name).state = s)
    ∧ (∀ (s : NewWorkspaceService) (h : HandleState WorkspaceCollection) (name : String),
      (s.editRESTRootCollection h name).state = s)
    ∧ (∀ (s : NewWorkspaceService) (h : HandleState WorkspaceCollection) (name : String),
      (s.editRESTChildCollection h name).state = s)
    ∧ (∀ (s : NewWorkspaceService) (h : HandleState WorkspaceCollection)
        (props : UpdatedCollectionProperties),
      (s.editRESTCollectionProperties h props).state = s)
    ∧ (∀ (s : NewWorkspaceService) (h : HandleState WorkspaceCollection),
      (s.removeRESTRootCollection h).state = s)
    ∧ (∀ (s : NewWorkspaceService) (h : HandleState WorkspaceCollection),
      (s.removeRESTChildCollection h).state = s)
    ∧ (∀ (s : NewWorkspaceService) (h : HandleState WorkspaceCollection) (name : String),
      (s.createRESTRequest h name).state = s)
    ∧ (∀ (s : NewWorkspaceService) (h : HandleState WorkspaceRequest),
      (s.removeRESTRequest h).state = s)
    ∧ (∀ (s : NewWorkspaceService) (h : HandleState WorkspaceRequest) (name : String),
      (s.editRESTRequest h name).state = s)
    ∧ (∀ (s : NewWorkspaceService) (h : HandleState WorkspaceRequest) (req : HoppRESTRequest),
      (s.saveRESTRequest h req).state = s)
    ∧ (∀ (s : NewWorkspaceService) (h : HandleState WorkspaceCollection),
      (s.getRESTCollectionChildrenView h).state = s)
    ∧ (∀ (s : NewWorkspaceService) (h : HandleState Workspace),
      (s.getRESTRootCollectionView h).state = s)
    ∧ (∀ (s : NewWorkspaceService) (p : WorkspaceProvider),
      (s.registerWorkspaceProvider p).activeWorkspaceHandle = s.activeWorkspaceHandle) := by
  refine ⟨?_, ?_, ?_, ?_, ?_, ?_, ?_, ?_, ?_, ?_, ?_, ?_, ?_, ?_, ?_, ?_, ?_⟩
  · intro s pid wid
    unfold NewWorkspaceService.getWorkspaceHandle
    repeat' split
    all_goals rfl
  · intro s h cid
    unfold NewWorkspaceService.getCollectionHandle
    repeat' split
    all_goals rfl
  · intro s h rid
    unfold NewWorkspaceService.getRequestHandle
    repeat' split
    all_goals rfl
  · intro s h name
    unfold NewWorkspaceService.createRESTRootCollection
    repeat' split
    all_goals rfl
  · intro s h name
    unfold NewWorkspaceService.createRESTChildCollection
    repeat' split
    all_goals rfl
  · intro s h name
    unfold NewWorkspaceService.editRESTRootCollection
    repeat' split
    all_goals rfl
  · intro s h name
    unfold NewWorkspaceService.editRESTChildCollection
    repeat' split
    all_goals rfl
  · intro s h props
    unfold NewWorkspaceService.editRESTCollectionProperties
    repeat' split
    all_goals rfl
  · intro s h
    unfold NewWorkspaceService.removeRESTRootCollection
    repeat' split
    all_goals rfl
  · intro s h
    unfold NewWorkspaceService.removeRESTChildCollection
    repeat' split
    all_goals rfl
  · intro s h name
    unfold NewWorkspaceService.createRESTRequest
    repeat' split
    all_goals rfl
  · intro s h
    unfold NewWorkspaceService.removeRESTRequest
    repeat' split
    all_goals rfl
  · intro s h name
    unfold NewWorkspaceService.editRESTRequest
    repeat' split
    all_goals rfl
  · intro s h req
    unfold NewWorkspaceService.saveRESTRequest
    repeat' split
    all_goals rfl
  · intro s h
    unfold NewWorkspaceService.getRESTCollectionChildrenView
    repeat' split
    all_goals rfl
  · intro s h
    unfold NewWorkspaceService.getRESTRootCollectionView
    repeat' split
    all_goals rfl
  · intro s p
    unfold NewWorkspaceService.registerWorkspaceProvider
    split
    · rfl
    · rfl

/-! ### C4 -/

/-- The tag test `value.type === "invalid"` that opens every dispatching
service method (e.g. source line 117). -/
def HandleState.typeIsInvalid {α : Type} : HandleState α → Bool
  | .invalid => true
  | _ => false

/-- The tag test `value.type === "ok"` whose negation guards
`activeWorkspaceDecor` (source line 33). -/
def HandleState.typeIsOk {α : Type} : HandleState α → Bool
  | .ok _ => true
  | _ => false

/-- C4: a handle state is exactly one of the three alternatives — a resolved
value (`ok`), an error, or the invalidated marker — the three alternatives are
pairwise distinct, and the two tag tests the service performs pick out the
`invalid` and the `ok` alternatives respectively. -/
theorem handle_state_trichotomy (α : Type) :
    (∀ h : HandleState α,
      (∃ a, h = HandleState.ok a) ∨ (∃ e, h = HandleState.error e) ∨ h = HandleState.invalid)
    ∧ (∀ (a : α) (e : ProviderErr),
      HandleState.ok a ≠ HandleState.error e
      ∧ HandleState.ok a ≠ HandleState.invalid
      ∧ HandleState.error e ≠ (HandleState.invalid : HandleState α))
    ∧ (∀ h : HandleState α, h.typeIsInvalid = true ↔ h = HandleState.invalid)
    ∧ (∀ h : HandleState α, h.typeIsOk = true ↔ ∃ a, h = HandleState.ok a) := by
  refine ⟨?_, ?_, ?_, ?_⟩
  · intro h
    cases h with
    | ok a => exact Or.inl ⟨a, rfl⟩
    | error e => exact Or.inr (Or.inl ⟨e, rfl⟩)
    | invalid => exact Or.inr (Or.inr rfl)
  · intro a e
    refine ⟨?_, ?_, ?_⟩ <;> intro hcon <;> cases hcon
  · intro h
    cases h <;> simp [HandleState.typeIsInvalid]
  · intro h
    cases h <;> simp [HandleState.typeIsOk]

/-! ### C8 -/

/-- C8: when the watcher installed by the constructor runs, an active workspace
handle wrapping the invalidated marker is reset to `undefined`; after the
watcher has run the active workspace handle is either `undefined` or wraps a
non-invalidated state; and the watcher touches nothing else (the provider
registry is unchanged). -/
theorem watcher_clears_invalidated_active_handle (s : NewWorkspaceService) :
    (s.activeWorkspaceHandle = some HandleState.invalid →
      s.handleInvalidationWatcher.activeWorkspaceHandle = none)
    ∧ (s.handleInvalidationWatcher.activeWorkspaceHandle = none
        ∨ ∃ h, s.handleInvalidationWatcher.activeWorkspaceHandle = some h
            ∧ h ≠ HandleState.invalid)
    ∧ s.handleInvalidationWatcher.registeredProviders = s.registeredProviders := by
  rcases ha : s.activeWorkspaceHandle with _ | h
  · refine ⟨?_, ?_, ?_⟩
    · intro hc
      simp at hc
    · exact Or.inl (by simp [NewWorkspaceService.handleInvalidationWatcher, ha])
    · simp [NewWorkspaceService.handleInvalidationWatcher, ha]
  · cases h with
    | ok d =>
      refine ⟨?_, ?_, ?_⟩
      · intro hc
        simp at hc
      · exact Or.inr ⟨HandleState.ok d,
          by simp [NewWorkspaceService.handleInvalidationWatcher, ha], by simp⟩
      · simp [NewWorkspaceService.handleInvalidationWatcher, ha]
    | error e =>
      refine ⟨?_, ?_, ?_⟩
      · intro hc
        simp at hc
      · exact Or.inr ⟨HandleState.error e,
          by simp [NewWorkspaceService.handleInvalidationWatcher, ha], by simp⟩
      · simp [NewWorkspaceService.handleInvalidationWatcher, ha]
    | invalid =>
      refine ⟨?_, ?_, ?_⟩
      · intro _
        simp [NewWorkspaceService.handleInvalidationWatcher, ha]
      · exact Or.inl (by simp [NewWorkspaceService.handleInvalidationWatcher, ha])
      · simp [NewWorkspaceService.handleInvalidationWatcher, ha]

/-- Concrete run of the C8 theorem: a service whose active handle has been
invalidated ends up with no active handle after the watcher runs. -/
theorem watcher_clears_invalidated_active_handle_witness :
    (NewWorkspaceService.mk [] (some HandleState.invalid)).handleInvalidationWatcher.activeWorkspaceHandle
      = none :=
  (watcher_clears_invalidated_active_handle ⟨[], some HandleState.invalid⟩).1 rfl

/-! ### C5 -/

/-- Looking a key up after appending one binding at the end: the original map
wins, the new binding is only found when the key was absent. -/
theorem lookup_append_singleton (l : List (String × WorkspaceProvider))
    (k : String) (v : WorkspaceProvider) (pid : String) :
    (l ++ [(k, v)]).lookup pid
      = (l.lookup pid).or (if pid == k then some v else none) := by
  induction l with
  | nil =>
    by_cases h : pid = k
    · simp [List.lookup, h]
    · have hb : (pid == k) = false := by simp [h]
      simp [List.lookup, hb]
  | cons head tail ih =>
    obtain ⟨hk, hv⟩ := head
    by_cases hpid : pid = hk
    · simp [List.lookup, hpid]
    · have hb : (pid == hk) = false := by simp [hpid]
      simp [List.lookup, hb, ih]

/-- Folding `registerWorkspaceProvider` over a list of providers: a key already
present keeps its binding, and an absent key ends up bound to the first
provider in the list carrying it. -/
theorem foldl_register_lookup (ps : List WorkspaceProvider)
    (s : NewWorkspaceService) (pid : String) :
    ((ps.foldl NewWorkspaceService.registerWorkspaceProvider s).registeredProviders).lookup pid
      = ((s.registeredProviders).lookup pid).or
          (ps.find? (fun p => p.providerID == pid)) := by
  induction ps generalizing s with
  | nil => simp
  | cons q rest ih =>
    rw [List.foldl_cons, ih]
    by_cases hq : (s.registeredProviders.lookup q.providerID).isSome
    · rw [NewWorkspaceService.registerWorkspaceProvider, if_pos hq]
      by_cases hpq : pid = q.providerID
      · subst hpq
        obtain ⟨v, hv⟩ := Option.isSome_iff_exists.mp hq
        simp [hv, List.find?]
      · have : (q.providerID == pid) = false := by
          simp [BEq.beq]
          exact fun hcon => hpq hcon.symm
        simp [List.find?, this]
    · rw [NewWorkspaceService.registerWorkspaceProvider, if_neg hq]
      simp only [lookup_append_singleton, Option.or_assoc]
      by_cases hpq : pid = q.providerID
      · subst hpq
        simp [List.find?]
      · have h1 : (pid == q.providerID) = false := by simp [hpq]
        have h2 : (q.providerID == pid) = false := by
          simp [BEq.beq]
          exact fun hcon => hpq hcon.symm
        simp [List.find?, h1, h2]

/-- C5: providers are registered at runtime under their `providerID`;
registering a provider whose ID is already taken leaves the registry unchanged,
registering under a fresh ID stores the provider under that ID, and after any
sequence of registrations starting from a fresh service each ID is mapped to
the first provider registered under it. -/
theorem register_first_wins :
    (∀ (s : NewWorkspaceService) (p : WorkspaceProvider),
      (s.registeredProviders.lookup p.providerID).isSome = true →
        s.registerWorkspaceProvider p = s)
    ∧ (∀ (s : NewWorkspaceService) (p : WorkspaceProvider),
      s.registeredProviders.lookup p.providerID = none →
        (s.registerWorkspaceProvider p).registeredProviders.lookup p.providerID = some p)
    ∧ (∀ (ps : List WorkspaceProvider) (pid : String),
      ((ps.foldl NewWorkspaceService.registerWorkspaceProvider
          NewWorkspaceService.init).registeredProviders).lookup pid
        = ps.find? (fun p => p.providerID == pid)) := by
  refine ⟨?_, ?_, ?_⟩
  · intro s p h
    rw [NewWorkspaceService.registerWorkspaceProvider, if_pos h]
  · intro s p h
    rw [NewWorkspaceService.registerWorkspaceProvider,
      if_neg (by simp [h]), lookup_append_singleton]
    simp [h]
  · intro ps pid
    rw [foldl_register_lookup]
    simp [NewWorkspaceService.init, List.lookup]

/-- Concrete run of the C5 theorem: re-registering a second provider under the
already-taken ID `"local"` leaves the service unchanged, and the registry still
holds the first `"local"` provider. -/
theorem register_first_wins_witness :
    demoService.registerWorkspaceProvider
        (demoProvider "local" (some ⟨some 5, some "other-selector"⟩))
      = demoService
    ∧ demoService.registeredProviders.lookup "local" = some (demoProvider "local" none) :=
  ⟨register_first_wins.1 demoService
      (demoProvider "local" (some ⟨some 5, some "other-selector"⟩)) rfl,
    rfl⟩

/-! ### C9 -/

/-- C9: `activeWorkspaceDecor` evaluates to `undefined` whenever there is no
active workspace handle or its wrapped state is not `ok` (error or
invalidated); when the state is `ok` it dereferences the registry entry for the
embedded provider ID through a non-null assertion, so it returns that
provider's `workspaceDecor` when a provider is registered under the ID and the
evaluation fails (throws) exactly when none is. -/
theorem activeWorkspaceDecor_cases :
    (∀ s : NewWorkspaceService,
      s.activeWorkspaceHandle = none → s.activeWorkspaceDecor = some none)
    ∧ (∀ (s : NewWorkspaceService) (e : ProviderErr),
      s.activeWorkspaceHandle = some (HandleState.error e) →
        s.activeWorkspaceDecor = some none)
    ∧ (∀ s : NewWorkspaceService,
      s.activeWorkspaceHandle = some HandleState.invalid →
        s.activeWorkspaceDecor = some none)
    ∧ (∀ (s : NewWorkspaceService) (d : Workspace) (p : WorkspaceProvider),
      s.activeWorkspaceHandle = some (HandleState.ok d) →
        s.registeredProviders.lookup d.providerID = some p →
          s.activeWorkspaceDecor = some p.workspaceDecor)
    ∧ (∀ (s : NewWorkspaceService) (d : Workspace),
      s.activeWorkspaceHandle = some (HandleState.ok d) →
        s.registeredProviders.lookup d.providerID = none →
          s.activeWorkspaceDecor = none) := by
  refine ⟨?_, ?_, ?_, ?_, ?_⟩
  · intro s h
    simp [NewWorkspaceService.activeWorkspaceDecor, h]
  · intro s e h
    simp [NewWorkspaceService.activeWorkspaceDecor, h]
  · intro s h
    simp [NewWorkspaceService.activeWorkspaceDecor, h]
  · intro s d p h hl
    simp [NewWorkspaceService.activeWorkspaceDecor, h, hl]
  · intro s d h hl
    simp [NewWorkspaceService.activeWorkspaceDecor, h, hl]

/-- Concrete run of the C9 theorem: with an active `ok` handle whose provider
is registered, the computed returns that provider's decoration; with no active
handle it returns `undefined`. -/
theorem activeWorkspaceDecor_cases_witness :
    demoServiceActive.activeWorkspaceDecor = some none
    ∧ demoService.activeWorkspaceDecor = some none :=
  ⟨(activeWorkspaceDecor_cases.2.2.2.1 demoServiceActive demoWorkspace
      (demoProvider "local" none) rfl rfl).trans rfl,
    activeWorkspaceDecor_cases.1 demoService rfl⟩

/-! ### C7 -/

/-- Provider ID embedded in a handle state, when there is one: only the
resolved (`ok`) alternative carries `data` with a `providerID`. -/
def HandleState.embeddedProviderID {α : Type} (proj : α → String) :
    HandleState α → Option String
  | .ok d => some (proj d)
  | _ => none

/-- Both service-side checks of a dispatching operation succeed: a provider ID
is embedded in the handle (so the handle is neither invalidated nor in the
error alternative) and a provider is registered under it. -/
def NewWorkspaceService.dispatchChecksPass (s : NewWorkspaceService) :
    Option String → Bool
  | none => false
  | some pid => (s.registeredProviders.lookup pid).isSome

/-- C7: every service operation awaits at most one provider call — exactly one
when the handle-validity and provider-registry checks pass, and zero when
either check fails (for `getWorkspaceHandle` the only check is the registry
lookup of the provider ID passed in directly). -/
theorem at_most_one_provider_call :
    (∀ (s : NewWorkspaceService) (pid wid : String),
      (s.getWorkspaceHandle pid wid).calls.length
        = if (s.registeredProviders.lookup pid).isSome then 1 else 0)
    ∧ (∀ (s : NewWorkspaceService) (h : HandleState Workspace) (cid : String),
      (s.getCollectionHandle h cid).calls.length
        = if s.dispatchChecksPass (h.embeddedProviderID Workspace.providerID) then 1 else 0)
    ∧ (∀ (s : NewWorkspaceService) (h : HandleState WorkspaceCollection) (rid : String),
      (s.getRequestHandle h rid).calls.length
        = if s.dispatchChecksPass (h.embeddedProviderID WorkspaceCollection.providerID)
          then 1 else 0)
    ∧ (∀ (s : NewWorkspaceService) (h : HandleState Workspace) (name : String),
      (s.createRESTRootCollection h name).calls.length
        = if s.dispatchChecksPass (h.embeddedProviderID Workspace.providerID) then 1 else 0)
    ∧ (∀ (s : NewWorkspaceService) (h : HandleState WorkspaceCollection) (name : String),
      (s.createRESTChildCollection h name).calls.length
        = if s.dispatchChecksPass (h.embeddedProviderID WorkspaceCollection.providerID)
          then 1 else 0)
    ∧ (∀ (s : NewWorkspaceService) (h : HandleState WorkspaceCollection) (name : String),
      (s.editRESTRootCollection h name).calls.length
        = if s.dispatchChecksPass (h.embeddedProviderID WorkspaceCollection.providerID)
          then 1 else 0)
    ∧ (∀ (s : NewWorkspaceService) (h : HandleState WorkspaceCollection) (name : String),
      (s.editRESTChildCollection h name).calls.length
        = if s.dispatchChecksPass (h.embeddedProviderID WorkspaceCollection.providerID)
          then 1 else 0)
    ∧ (∀ (s : NewWorkspaceService) (h : HandleState WorkspaceCollection)
        (props : UpdatedCollectionProperties),
      (s.editRESTCollectionProperties h props).calls.length
        = if s.dispatchChecksPass (h.embeddedProviderID WorkspaceCollection.providerID)
          then 1 else 0)
    ∧ (∀ (s : NewWorkspaceService) (h : HandleState WorkspaceCollection),
      (s.removeRESTRootCollection h).calls.length
        = if s.dispatchChecksPass (h.embeddedProviderID WorkspaceCollection.providerID)
          then 1 else 0)
    ∧ (∀ (s : NewWorkspaceService) (h : HandleState WorkspaceCollection),
      (s.removeRESTChildCollection h).calls.length
        = if s.dispatchChecksPass (h.embeddedProviderID WorkspaceCollection.providerID)
          then 1 else 0)
    ∧ (∀ (s : NewWorkspaceService) (h : HandleState WorkspaceCollection) (name : String),
      (s.createRESTRequest h name).calls.length
        = if s.dispatchChecksPass (h.embeddedProviderID WorkspaceCollection.providerID)
          then 1 else 0)
    ∧ (∀ (s : NewWorkspaceService) (h : HandleState WorkspaceRequest),
      (s.removeRESTRequest h).calls.length
        = if s.dispatchChecksPass (h.embeddedProviderID WorkspaceRequest.providerID)
          then 1 else 0)
    ∧ (∀ (s : NewWorkspaceService) (h : HandleState WorkspaceRequest) (name : String),
      (s.editRESTRequest h name).calls.length
        = if s.dispatchChecksPass (h.embeddedProviderID WorkspaceRequest.providerID)
          then 1 else 0)
    ∧ (∀ (s : NewWorkspaceService) (h : HandleState WorkspaceRequest) (req : HoppRESTRequest),
      (s.saveRESTRequest h req).calls.length
        = if s.dispatchChecksPass (h.embeddedProviderID WorkspaceRequest.providerID)
          then 1 else 0)
    ∧ (∀ (s : NewWorkspaceService) (h : HandleState WorkspaceCollection),
      (s.getRESTCollectionChildrenView h).calls.length
        = if s.dispatchChecksPass (h.embeddedProviderID WorkspaceCollection.providerID)
          then 1 else 0)
    ∧ (∀ (s : NewWorkspaceService) (h : HandleState Workspace),
      (s.getRESTRootCollectionView h).calls.length
        = if s.dispatchChecksPass (h.embeddedProviderID Workspace.providerID) then 1 else 0) := by
  refine ⟨?_, ?_, ?_, ?_, ?_, ?_, ?_, ?_, ?_, ?_, ?_, ?_, ?_, ?_, ?_, ?_⟩
  · intro s pid wid
    rcases hl : s.registeredProviders.lookup pid with _ | p
    · simp [NewWorkspaceService.getWorkspaceHandle, hl]
    · rcases hm : p.getWorkspaceHandle wid with e | v <;>
        simp [NewWorkspaceService.getWorkspaceHandle, hl, hm]
  · intro s h cid
    cases h with
    | invalid => simp [NewWorkspaceService.getCollectionHandle, NewWorkspaceService.dispatchChecksPass, HandleState.embeddedProviderID]
    | error e => simp [NewWorkspaceService.getCollectionHandle, NewWorkspaceService.dispatchChecksPass, HandleState.embeddedProviderID]
    | ok d =>
      rcases hl : s.registeredProviders.lookup d.providerID with _ | p
      · simp [NewWorkspaceService.getCollectionHandle, NewWorkspaceService.dispatchChecksPass, HandleState.embeddedProviderID, hl]
      · rcases hm : p.getCollectionHandle (.ok d) cid with e | v <;>
          simp [NewWorkspaceService.getCollectionHandle, NewWorkspaceService.dispatchChecksPass, HandleState.embeddedProviderID, hl, hm]
  · intro s h rid
    cases h with
    | invalid => simp [NewWorkspaceService.getRequestHandle, NewWorkspaceService.dispatchChecksPass, HandleState.embeddedProviderID]
    | error e => simp [NewWorkspaceService.getRequestHandle, NewWorkspaceService.dispatchChecksPass, HandleState.embeddedProviderID]
    | ok d =>
      rcases hl : s.registeredProviders.lookup d.providerID with _ | p
      · simp [NewWorkspaceService.getRequestHandle, NewWorkspaceService.dispatchChecksPass, HandleState.embeddedProviderID, hl]
      · rcases hm : p.getRequestHandle (.ok d) rid with e | v <;>
          simp [NewWorkspaceService.getRequestHandle, NewWorkspaceService.dispatchChecksPass, HandleState.embeddedProviderID, hl, hm]
  · intro s h name
    cases h with
    | invalid => simp [NewWorkspaceService.createRESTRootCollection, NewWorkspaceService.dispatchChecksPass, HandleState.embeddedProviderID]
    | error e => simp [NewWorkspaceService.createRESTRootCollection, NewWorkspaceService.dispatchChecksPass, HandleState.embeddedProviderID]
    | ok d =>
      rcases hl : s.registeredProviders.lookup d.providerID with _ | p
      · simp [NewWorkspaceService.createRESTRootCollection, NewWorkspaceService.dispatchChecksPass, HandleState.embeddedProviderID, hl]
      · rcases hm : p.createRESTRootCollection (.ok d) name with e | v <;>
          simp [NewWorkspaceService.createRESTRootCollection, NewWorkspaceService.dispatchChecksPass, HandleState.embeddedProviderID, hl, hm]
  · intro s h name
    cases h with
    | invalid => simp [NewWorkspaceService.createRESTChildCollection, NewWorkspaceService.dispatchChecksPass, HandleState.embeddedProviderID]
    | error e => simp [NewWorkspaceService.createRESTChildCollection, NewWorkspaceService.dispatchChecksPass, HandleState.embeddedProviderID]
    | ok d =>
      rcases hl : s.registeredProviders.lookup d.providerID with _ | p
      · simp [NewWorkspaceService.createRESTChildCollection, NewWorkspaceService.dispatchChecksPass, HandleState.embeddedProviderID, hl]
      · rcases hm : p.createRESTChildCollection (.ok d) name with e | v <;>
          simp [NewWorkspaceService.createRESTChildCollection, NewWorkspaceService.dispatchChecksPass, HandleState.embeddedProviderID, hl, hm]
  · intro s h name
    cases h with
    | invalid => simp [NewWorkspaceService.editRESTRootCollection, NewWorkspaceService.dispatchChecksPass, HandleState.embeddedProviderID]
    | error e => simp [NewWorkspaceService.editRESTRootCollection, NewWorkspaceService.dispatchChecksPass, HandleState.embeddedProviderID]
    | ok d =>
      rcases hl : s.registeredProviders.lookup d.providerID with _ | p
      · simp [NewWorkspaceService.editRESTRootCollection, NewWorkspaceService.dispatchChecksPass, HandleState.embeddedProviderID, hl]
      · rcases hm : p.editRESTRootCollection (.ok d) name with e | v <;>
          simp [NewWorkspaceService.editRESTRootCollection, NewWorkspaceService.dispatchChecksPass, HandleState.embeddedProviderID, hl, hm]
  · intro s h name
    cases h with
    | invalid => simp [NewWorkspaceService.editRESTChildCollection, NewWorkspaceService.dispatchChecksPass, HandleState.embeddedProviderID]
    | error e => simp [NewWorkspaceService.editRESTChildCollection, NewWorkspaceService.dispatchChecksPass, HandleState.embeddedProviderID]
    | ok d =>
      rcases hl : s.registeredProviders.lookup d.providerID with _ | p
      · simp [NewWorkspaceService.editRESTChildCollection, NewWorkspaceService.dispatchChecksPass, HandleState.embeddedProviderID, hl]
      · rcases hm : p.editRESTChildCollection (.ok d) name with e | v <;>
          simp [NewWorkspaceService.editRESTChildCollection, NewWorkspaceService.dispatchChecksPass, HandleState.embeddedProviderID, hl, hm]
  · intro s h props
    cases h with
    | invalid => simp [NewWorkspaceService.editRESTCollectionProperties, NewWorkspaceService.dispatchChecksPass, HandleState.embeddedProviderID]
    | error e => simp [NewWorkspaceService.editRESTCollectionProperties, NewWorkspaceService.dispatchChecksPass, HandleState.embeddedProviderID]
    | ok d =>
      rcases hl : s.registeredProviders.lookup d.providerID with _ | p
      · simp [NewWorkspaceService.editRESTCollectionProperties, NewWorkspaceService.dispatchChecksPass, HandleState.embeddedProviderID, hl]
      · rcases hm : p.editRESTCollectionProperties (.ok d) props with e | v <;>
          simp [NewWorkspaceService.editRESTCollectionProperties, NewWorkspaceService.dispatchChecksPass, HandleState.embeddedProviderID, hl, hm]
  · intro s h
    cases h with
    | invalid => simp [NewWorkspaceService.removeRESTRootCollection, NewWorkspaceService.dispatchChecksPass, HandleState.embeddedProviderID]
    | error e => simp [NewWorkspaceService.removeRESTRootCollection, NewWorkspaceService.dispatchChecksPass, HandleState.embeddedProviderID]
    | ok d =>
      rcases hl : s.registeredProviders.lookup d.providerID with _ | p
      · simp [NewWorkspaceService.removeRESTRootCollection, NewWorkspaceService.dispatchChecksPass, HandleState.embeddedProviderID, hl]
      · rcases hm : p.removeRESTRootCollection (.ok d) with e | v <;>
          simp [NewWorkspaceService.removeRESTRootCollection, NewWorkspaceService.dispatchChecksPass, HandleState.embeddedProviderID, hl, hm]
  · intro s h
    cases h with
    | invalid => simp [NewWorkspaceService.removeRESTChildCollection, NewWorkspaceService.dispatchChecksPass, HandleState.embeddedProviderID]
    | error e => simp [NewWorkspaceService.removeRESTChildCollection, NewWorkspaceService.dispatchChecksPass, HandleState.embeddedProviderID]
    | ok d =>
      rcases hl : s.registeredProviders.lookup d.providerID with _ | p
      · simp [NewWorkspaceService.removeRESTChildCollection, NewWorkspaceService.dispatchChecksPass, HandleState.embeddedProviderID, hl]
      · rcases hm : p.removeRESTChildCollection (.ok d) with e | v <;>
          simp [NewWorkspaceService.removeRESTChildCollection, NewWorkspaceService.dispatchChecksPass, HandleState.embeddedProviderID, hl, hm]
  · intro s h name
    cases h with
    | invalid => simp [NewWorkspaceService.createRESTRequest, NewWorkspaceService.dispatchChecksPass, HandleState.embeddedProviderID]
    | error e => simp [NewWorkspaceService.createRESTRequest, NewWorkspaceService.dispatchChecksPass, HandleState.embeddedProviderID]
    | ok d =>
      rcases hl : s.registeredProviders.lookup d.providerID with _ | p
      · simp [NewWorkspaceService.createRESTRequest, NewWorkspaceService.dispatchChecksPass, HandleState.embeddedProviderID, hl]
      · rcases hm : p.createRESTRequest (.ok d) name with e | v <;>
          simp [NewWorkspaceService.createRESTRequest, NewWorkspaceService.dispatchChecksPass, HandleState.embeddedProviderID, hl, hm]
  · intro s h
    cases h with
    | invalid => simp [NewWorkspaceService.removeRESTRequest, NewWorkspaceService.dispatchChecksPass, HandleState.embeddedProviderID]
    | error e => simp [NewWorkspaceService.removeRESTRequest, NewWorkspaceService.dispatchChecksPass, HandleState.embeddedProviderID]
    | ok d =>
      rcases hl : s.registeredProviders.lookup d.providerID with _ | p
      · simp [NewWorkspaceService.removeRESTRequest, NewWorkspaceService.dispatchChecksPass, HandleState.embeddedProviderID, hl]
      · rcases hm : p.removeRESTRequest (.ok d) with e | v <;>
          simp [NewWorkspaceService.removeRESTRequest, NewWorkspaceService.dispatchChecksPass, HandleState.embeddedProviderID, hl, hm]
  · intro s h name
    cases h with
    | invalid => simp [NewWorkspaceService.editRESTRequest, NewWorkspaceService.dispatchChecksPass, HandleState.embeddedProviderID]
    | error e => simp [NewWorkspaceService.editRESTRequest, NewWorkspaceService.dispatchChecksPass, HandleState.embeddedProviderID]
    | ok d =>
      rcases hl : s.registeredProviders.lookup d.providerID with _ | p
      · simp [NewWorkspaceService.editRESTRequest, NewWorkspaceService.dispatchChecksPass, HandleState.embeddedProviderID, hl]
      · rcases hm : p.editRESTRequest (.ok d) name with e | v <;>
          simp [NewWorkspaceService.editRESTRequest, NewWorkspaceService.dispatchChecksPass, HandleState.embeddedProviderID, hl, hm]
  · intro s h req
    cases h with
    | invalid => simp [NewWorkspaceService.saveRESTRequest, NewWorkspaceService.dispatchChecksPass, HandleState.embeddedProviderID]
    | error e => simp [NewWorkspaceService.saveRESTRequest, NewWorkspaceService.dispatchChecksPass, HandleState.embeddedProviderID]
    | ok d =>
      rcases hl : s.registeredProviders.lookup d.providerID with _ | p
      · simp [NewWorkspaceService.saveRESTRequest, NewWorkspaceService.dispatchChecksPass, HandleState.embeddedProviderID, hl]
      · rcases hm : p.saveRESTRequest (.ok d) req with e | v <;>
          simp [NewWorkspaceService.saveRESTRequest, NewWorkspaceService.dispatchChecksPass, HandleState.embeddedProviderID, hl, hm]
  · intro s h
    cases h with
    | invalid => simp [NewWorkspaceService.getRESTCollectionChildrenView, NewWorkspaceService.dispatchChecksPass, HandleState.embeddedProviderID]
    | error e => simp [NewWorkspaceService.getRESTCollectionChildrenView, NewWorkspaceService.dispatchChecksPass, HandleState.embeddedProviderID]
    | ok d =>
      rcases hl : s.registeredProviders.lookup d.providerID with _ | p
      · simp [NewWorkspaceService.getRESTCollectionChildrenView, NewWorkspaceService.dispatchChecksPass, HandleState.embeddedProviderID, hl]
      · rcases hm : p.getRESTCollectionChildrenView (.ok d) with e | v <;>
          simp [NewWorkspaceService.getRESTCollectionChildrenView, NewWorkspaceService.dispatchChecksPass, HandleState.embeddedProviderID, hl, hm]
  · intro s h
    cases h with
    | invalid => simp [NewWorkspaceService.getRESTRootCollectionView, NewWorkspaceService.dispatchChecksPass, HandleState.embeddedProviderID]
    | error e => simp [NewWorkspaceService.getRESTRootCollectionView, NewWorkspaceService.dispatchChecksPass, HandleState.embeddedProviderID]
    | ok d =>
      rcases hl : s.registeredProviders.lookup d.providerID with _ | p
      · simp [NewWorkspaceService.getRESTRootCollectionView, NewWorkspaceService.dispatchChecksPass, HandleState.embeddedProviderID, hl]
      · rcases hm : p.getRESTRootCollectionView (.ok d) with e | v <;>
          simp [NewWorkspaceService.getRESTRootCollectionView, NewWorkspaceService.dispatchChecksPass, HandleState.embeddedProviderID, hl, hm]

/-! ### C1 -/

/-- C1 counterexample: a handle that is not invalidated need not be routed to
a provider.  On a handle in the error alternative `createRESTRootCollection`
invokes no provider method and does not return
`Left SERVICE_ERROR INVALID_PROVIDER` (even though no provider at all is
registered here): reading `.data.providerID` off the error alternative throws,
so the promise rejects with no `Either` result at all. -/
theorem dispatch_routing_error_state_cex :
    (NewWorkspaceService.init.createRESTRootCollection
        (HandleState.error "network failure") "specs").calls = []
    ∧ (NewWorkspaceService.init.createRESTRootCollection
        (HandleState.error "network failure") "specs").result
        ≠ some (.error (.serviceError .INVALID_PROVIDER))
    ∧ (NewWorkspaceService.init.createRESTRootCollection
        (HandleState.error "network failure") "specs").result = none :=
  ⟨rfl, by simp [NewWorkspaceService.createRESTRootCollection], rfl⟩

/-- C1 (amended): for every service operation that takes a handle, if the
handle is in the resolved (`ok`) state, the operation invokes the
identically-named method of the provider registered under the provider ID
embedded in the handle's data and returns its unwrapped answer; if no provider
is registered under that ID, the operation returns
`Left SERVICE_ERROR INVALID_PROVIDER` and invokes no provider method. -/
theorem dispatch_routes_to_embedded_provider :
    (∀ (s : NewWorkspaceService) (data : Workspace) (cid : String) (p : WorkspaceProvider),
      s.registeredProviders.lookup data.providerID = some p →
        (s.getCollectionHandle (.ok data) cid).calls
          = [⟨data.providerID, MethodName.getCollectionHandle⟩]
        ∧ (s.getCollectionHandle (.ok data) cid).result
          = (match p.getCollectionHandle (.ok data) cid with
              | .error e => some (.error (.providerError e))
              | .ok v => some (.ok v)))
    ∧ (∀ (s : NewWorkspaceService) (data : Workspace) (cid : String),
      s.registeredProviders.lookup data.providerID = none →
        s.getCollectionHandle (.ok data) cid
          = ⟨s, some (.error (.serviceError .INVALID_PROVIDER)), []⟩)
    ∧     (∀ (s : NewWorkspaceService) (data : WorkspaceCollection) (rid : String) (p : WorkspaceProvider),
      s.registeredProviders.lookup data.providerID = some p →
        (s.getRequestHandle (.ok data) rid).calls
          = [⟨data.providerID, MethodName.getRequestHandle⟩]
        ∧ (s.getRequestHandle (.ok data) rid).result
          = (match p.getRequestHandle (.ok data) rid with
              | .error e => some (.error (.providerError e))
              | .ok v => some (.ok v)))
    ∧ (∀ (s : NewWorkspaceService) (data : WorkspaceCollection) (rid : String),
      s.registeredProviders.lookup data.providerID = none →
        s.getRequestHandle (.ok data) rid
          = ⟨s, some (.error (.serviceError .INVALID_PROVIDER)), []⟩)
    ∧     (∀ (s : NewWorkspaceService) (data : Workspace) (name : String) (p : WorkspaceProvider),
      s.registeredProviders.lookup data.providerID = some p →
        (s.createRESTRootCollection (.ok data) name).calls
          = [⟨data.providerID, MethodName.createRESTRootCollection⟩]
        ∧ (s.createRESTRootCollection (.ok data) name).result
          = (match p.createRESTRootCollection (.ok data) name with
              | .error e => some (.error (.providerError e))
              | .ok v => some (.ok v)))
    ∧ (∀ (s : NewWorkspaceService) (data : Workspace) (name : String),
      s.registeredProviders.lookup data.providerID = none →
        s.createRESTRootCollection (.ok data) name
          = ⟨s, some (.error (.serviceError .INVALID_PROVIDER)), []⟩)
    ∧     (∀ (s : NewWorkspaceService) (data : WorkspaceCollection) (name : String) (p : WorkspaceProvider),
      s.registeredProviders.lookup data.providerID = some p →
        (s.createRESTChildCollection (.ok data) name).calls
          = [⟨data.providerID, MethodName.createRESTChildCollection⟩]
        ∧ (s.createRESTChildCollection (.ok data) name).result
          = (match p.createRESTChildCollection (.ok data) name with
              | .error e => some (.error (.providerError e))
              | .ok v => some (.ok v)))
    ∧ (∀ (s : NewWorkspaceService) (data : WorkspaceCollection) (name : String),
      s.registeredProviders.lookup data.providerID = none →
        s.createRESTChildCollection (.ok data) name
          = ⟨s, some (.error (.serviceError .INVALID_PROVIDER)), []⟩)
    ∧     (∀ (s : NewWorkspaceService) (data : WorkspaceCollection) (name : String) (p : WorkspaceProvider),
      s.registeredProviders.lookup data.providerID = some p →
        (s.editRESTRootCollection (.ok data) name).calls
          = [⟨data.providerID, MethodName.editRESTRootCollection⟩]
        ∧ (s.editRESTRootCollection (.ok data) name).result
          = (match p.editRESTRootCollection (.ok data) name with
              | .error e => some (.error (.providerError e))
              | .ok v => some (.ok v)))
    ∧ (∀ (s : NewWorkspaceService) (data : WorkspaceCollection) (name : String),
      s.registeredProviders.lookup data.providerID = none →
        s.editRESTRootCollection (.ok data) name
          = ⟨s, some (.error (.serviceError .INVALID_PROVIDER)), []⟩)
    ∧     (∀ (s : NewWorkspaceService) (data : WorkspaceCollection) (name : String) (p : WorkspaceProvider),
      s.registeredProviders.lookup data.providerID = some p →
        (s.editRESTChildCollection (.ok data) name).calls
          = [⟨data.providerID, MethodName.editRESTChildCollection⟩]
        ∧ (s.editRESTChildCollection (.ok data) name).result
          = (match p.editRESTChildCollection (.ok data) name with
              | .error e => some (.error (.providerError e))
              | .ok v => some (.ok v)))
    ∧ (∀ (s : NewWorkspaceService) (data : WorkspaceCollection) (name : String),
      s.registeredProviders.lookup data.providerID = none →
        s.editRESTChildCollection (.ok data) name
          = ⟨s, some (.error (.serviceError .INVALID_PROVIDER)), []⟩)
    ∧     (∀ (s : NewWorkspaceService) (data : WorkspaceCollection) (props : UpdatedCollectionProperties) (p : WorkspaceProvider),
      s.registeredProviders.lookup data.providerID = some p →
        (s.editRESTCollectionProperties (.ok data) props).calls
          = [⟨data.providerID, MethodName.editRESTCollectionProperties⟩]
        ∧ (s.editRESTCollectionProperties (.ok data) props).result
          = (match p.editRESTCollectionProperties (.ok data) props with
              | .error e => some (.error (.providerError e))
              | .ok v => some (.ok v)))
    ∧ (∀ (s : NewWorkspaceService) (data : WorkspaceCollection) (props : UpdatedCollectionProperties),
      s.registeredProviders.lookup data.providerID = none →
        s.editRESTCollectionProperties (.ok data) props
          = ⟨s, some (.error (.serviceError .INVALID_PROVIDER)), []⟩)
    ∧     (∀ (s : NewWorkspaceService) (data : WorkspaceCollection) (p : WorkspaceProvider),
      s.registeredProviders.lookup data.providerID = some p →
        (s.removeRESTRootCollection (.ok data)).calls
          = [⟨data.providerID, MethodName.removeRESTRootCollection⟩]
        ∧ (s.removeRESTRootCollection (.ok data)).result
          = (match p.removeRESTRootCollection (.ok data) with
              | .error e => some (.error (.providerError e))
              | .ok v => some (.ok v)))
    ∧ (∀ (s : NewWorkspaceService) (data : WorkspaceCollection),
      s.registeredProviders.lookup data.providerID = none →
        s.removeRESTRootCollection (.ok data)
          = ⟨s, some (.error (.serviceError .INVALID_PROVIDER)), []⟩)
    ∧     (∀ (s : NewWorkspaceService) (data : WorkspaceCollection) (p : WorkspaceProvider),
      s.registeredProviders.lookup data.providerID = some p →
        (s.removeRESTChildCollection (.ok data)).calls
          = [⟨data.providerID, MethodName.removeRESTChildCollection⟩]
        ∧ (s.removeRESTChildCollection (.ok data)).result
          = (match p.removeRESTChildCollection (.ok data) with
              | .error e => some (.error (.providerError e))
              | .ok v => some (.ok v)))
    ∧ (∀ (s : NewWorkspaceService) (data : WorkspaceCollection),
      s.registeredProviders.lookup data.providerID = none →
        s.removeRESTChildCollection (.ok data)
          = ⟨s, some (.error (.serviceError .INVALID_PROVIDER)), []⟩)
    ∧     (∀ (s : NewWorkspaceService) (data : WorkspaceCollection) (name : String) (p : WorkspaceProvider),
      s.registeredProviders.lookup data.providerID = some p →
        (s.createRESTRequest (.ok data) name).calls
          = [⟨data.providerID, MethodName.createRESTRequest⟩]
        ∧ (s.createRESTRequest (.ok data) name).result
          = (match p.createRESTRequest (.ok data) name with
              | .error e => some (.error (.providerError e))
              | .ok v => some (.ok v)))
    ∧ (∀ (s : NewWorkspaceService) (data : WorkspaceCollection) (name : String),
      s.registeredProviders.lookup data.providerID = none →
        s.createRESTRequest (.ok data) name
          = ⟨s, some (.error (.serviceError .INVALID_PROVIDER)), []⟩)
    ∧     (∀ (s : NewWorkspaceService) (data : WorkspaceRequest) (p : WorkspaceProvider),
      s.registeredProviders.lookup data.providerID = some p →
        (s.removeRESTRequest (.ok data)).calls
          = [⟨data.providerID, MethodName.removeRESTRequest⟩]
        ∧ (s.removeRESTRequest (.ok data)).result
          = (match p.removeRESTRequest (.ok data) with
              | .error e => some (.error (.providerError e))
              | .ok v => some (.ok v)))
    ∧ (∀ (s : NewWorkspaceService) (data : WorkspaceRequest),
      s.registeredProviders.lookup data.providerID = none →
        s.removeRESTRequest (.ok data)
          = ⟨s, some (.error (.serviceError .INVALID_PROVIDER)), []⟩)
    ∧     (∀ (s : NewWorkspaceService) (data : WorkspaceRequest) (name : String) (p : WorkspaceProvider),
      s.registeredProviders.lookup data.providerID = some p →
        (s.editRESTRequest (.ok data) name).calls
          = [⟨data.providerID, MethodName.editRESTRequest⟩]
        ∧ (s.editRESTRequest (.ok data) name).result
          = (match p.editRESTRequest (.ok data) name with
              | .error e => some (.error (.providerError e))
              | .ok v => some (.ok v)))
    ∧ (∀ (s : NewWorkspaceService) (data : WorkspaceRequest) (name : String),
      s.registeredProviders.lookup data.providerID = none →
        s.editRESTRequest (.ok data) name
          = ⟨s, some (.error (.serviceError .INVALID_PROVIDER)), []⟩)
    ∧     (∀ (s : NewWorkspaceService) (data : WorkspaceRequest) (req : HoppRESTRequest) (p : WorkspaceProvider),
      s.registeredProviders.lookup data.providerID = some p →
        (s.saveRESTRequest (.ok data) req).calls
          = [⟨data.providerID, MethodName.saveRESTRequest⟩]
        ∧ (s.saveRESTRequest (.ok data) req).result
          = (match p.saveRESTRequest (.ok data) req with
              | .error e => some (.error (.providerError e))
              | .ok v => some (.ok v)))
    ∧ (∀ (s : NewWorkspaceService) (data : WorkspaceRequest) (req : HoppRESTRequest),
      s.registeredProviders.lookup data.providerID = none →
        s.saveRESTRequest (.ok data) req
          = ⟨s, some (.error (.serviceError .INVALID_PROVIDER)), []⟩)
    ∧     (∀ (s : NewWorkspaceService) (data : WorkspaceCollection) (p : WorkspaceProvider),
      s.registeredProviders.lookup data.providerID = some p →
        (s.getRESTCollectionChildrenView (.ok data)).calls
          = [⟨data.providerID, MethodName.getRESTCollectionChildrenView⟩]
        ∧ (s.getRESTCollectionChildrenView (.ok data)).result
          = (match p.getRESTCollectionChildrenView (.ok data) with
              | .error e => some (.error (.providerError e))
              | .ok v => some (.ok v)))
    ∧ (∀ (s : NewWorkspaceService) (data : WorkspaceCollection),
      s.registeredProviders.lookup data.providerID = none →
        s.getRESTCollectionChildrenView (.ok data)
          = ⟨s, some (.error (.serviceError .INVALID_PROVIDER)), []⟩)
    ∧     (∀ (s : NewWorkspaceService) (data : Workspace) (p : WorkspaceProvider),
      s.registeredProviders.lookup data.providerID = some p →
        (s.getRESTRootCollectionView (.ok data)).calls
          = [⟨data.providerID, MethodName.getRESTRootCollectionView⟩]
        ∧ (s.getRESTRootCollectionView (.ok data)).result
          = (match p.getRESTRootCollectionView (.ok data) with
              | .error e => some (.error (.providerError e))
              | .ok v => some (.ok v)))
    ∧ (∀ (s : NewWorkspaceService) (data : Workspace),
      s.registeredProviders.lookup data.providerID = none →
        s.getRESTRootCollectionView (.ok data)
          = ⟨s, some (.error (.serviceError .INVALID_PROVIDER)), []⟩) := by
  refine ⟨?_, ?_, ?_, ?_, ?_, ?_, ?_, ?_, ?_, ?_, ?_, ?_, ?_, ?_, ?_, ?_, ?_, ?_, ?_, ?_, ?_, ?_, ?_, ?_, ?_, ?_, ?_, ?_, ?_, ?_⟩
  · intro s data cid p hp
    refine ⟨?_, ?_⟩ <;>
      rcases hm : p.getCollectionHandle (.ok data) cid with e | v <;>
        simp [NewWorkspaceService.getCollectionHandle, hp, hm]
  · intro s data cid hp
    simp [NewWorkspaceService.getCollectionHandle, hp]
  · intro s data rid p hp
    refine ⟨?_, ?_⟩ <;>
      rcases hm : p.getRequestHandle (.ok data) rid with e | v <;>
        simp [NewWorkspaceService.getRequestHandle, hp, hm]
  · intro s data rid hp
    simp [NewWorkspaceService.getRequestHandle, hp]
  · intro s data name p hp
    refine ⟨?_, ?_⟩ <;>
      rcases hm : p.createRESTRootCollection (.ok data) name with e | v <;>
        simp [NewWorkspaceService.createRESTRootCollection, hp, hm]
  · intro s data name hp
    simp [NewWorkspaceService.createRESTRootCollection, hp]
  · intro s data name p hp
    refine ⟨?_, ?_⟩ <;>
      rcases hm : p.createRESTChildCollection (.ok data) name with e | v <;>
        simp [NewWorkspaceService.createRESTChildCollection, hp, hm]
  · intro s data name hp
    simp [NewWorkspaceService.createRESTChildCollection, hp]
  · intro s data name p hp
    refine ⟨?_, ?_⟩ <;>
      rcases hm : p.editRESTRootCollection (.ok data) name with e | v <;>
        simp [NewWorkspaceService.editRESTRootCollection, hp, hm]
  · intro s data name hp
    simp [NewWorkspaceService.editRESTRootCollection, hp]
  · intro s data name p hp
    refine ⟨?_, ?_⟩ <;>
      rcases hm : p.editRESTChildCollection (.ok data) name with e | v <;>
        simp [NewWorkspaceService.editRESTChildCollection, hp, hm]
  · intro s data name hp
    simp [NewWorkspaceService.editRESTChildCollection, hp]
  · intro s data props p hp
    refine ⟨?_, ?_⟩ <;>
      rcases hm : p.editRESTCollectionProperties (.ok data) props with e | v <;>
        simp [NewWorkspaceService.editRESTCollectionProperties, hp, hm]
  · intro s data props hp
    simp [NewWorkspaceService.editRESTCollectionProperties, hp]
  · intro s data p hp
    refine ⟨?_, ?_⟩ <;>
      rcases hm : p.removeRESTRootCollection (.ok data) with e | v <;>
        simp [NewWorkspaceService.removeRESTRootCollection, hp, hm]
  · intro s data hp
    simp [NewWorkspaceService.removeRESTRootCollection, hp]
  · intro s data p hp
    refine ⟨?_, ?_⟩ <;>
      rcases hm : p.removeRESTChildCollection (.ok data) with e | v <;>
        simp [NewWorkspaceService.removeRESTChildCollection, hp, hm]
  · intro s data hp
    simp [NewWorkspaceService.removeRESTChildCollection, hp]
  · intro s data name p hp
    refine ⟨?_, ?_⟩ <;>
      rcases hm : p.createRESTRequest (.ok data) name with e | v <;>
        simp [NewWorkspaceService.createRESTRequest, hp, hm]
  · intro s data name hp
    simp [NewWorkspaceService.createRESTRequest, hp]
  · intro s data p hp
    refine ⟨?_, ?_⟩ <;>
      rcases hm : p.removeRESTRequest (.ok data) with e | v <;>
        simp [NewWorkspaceService.removeRESTRequest, hp, hm]
  · intro s data hp
    simp [NewWorkspaceService.removeRESTRequest, hp]
  · intro s data name p hp
    refine ⟨?_, ?_⟩ <;>
      rcases hm : p.editRESTRequest (.ok data) name with e | v <;>
        simp [NewWorkspaceService.editRESTRequest, hp, hm]
  · intro s data name hp
    simp [NewWorkspaceService.editRESTRequest, hp]
  · intro s data req p hp
    refine ⟨?_, ?_⟩ <;>
      rcases hm : p.saveRESTRequest (.ok data) req with e | v <;>
        simp [NewWorkspaceService.saveRESTRequest, hp, hm]
  · intro s data req hp
    simp [NewWorkspaceService.saveRESTRequest, hp]
  · intro s data p hp
    refine ⟨?_, ?_⟩ <;>
      rcases hm : p.getRESTCollectionChildrenView (.ok data) with e | v <;>
        simp [NewWorkspaceService.getRESTCollectionChildrenView, hp, hm]
  · intro s data hp
    simp [NewWorkspaceService.getRESTCollectionChildrenView, hp]
  · intro s data p hp
    refine ⟨?_, ?_⟩ <;>
      rcases hm : p.getRESTRootCollectionView (.ok data) with e | v <;>
        simp [NewWorkspaceService.getRESTRootCollectionView, hp, hm]
  · intro s data hp
    simp [NewWorkspaceService.getRESTRootCollectionView, hp]

/-- Concrete run of the amended C1 theorem: with the `"local"` provider
registered, `getCollectionHandle` on an `ok` workspace handle embedding
`"local"` awaits exactly that provider's `getCollectionHandle`. -/
theorem dispatch_routes_to_embedded_provider_witness :
    (demoService.getCollectionHandle (.ok demoWorkspace) "c1").calls
      = [⟨"local", MethodName.getCollectionHandle⟩] :=
  (dispatch_routes_to_embedded_provider.1 demoService demoWorkspace "c1"
    (demoProvider "local" none) rfl).1

/-! ### C2 -/

/-- C2 counterexample: a service operation need not produce any of the three
`Either` shapes of the two-layer error model.  On a handle in the error
alternative, `saveRESTRequest` throws while reading `.data.providerID`, so its
promise rejects and settles with no `Either` at all (neither `Right`, nor
`Left SERVICE_ERROR`, nor `Left PROVIDER_ERROR`). -/
theorem two_layer_error_model_cex :
    (NewWorkspaceService.init.saveRESTRequest
        (HandleState.error "disk corrupt") "request-payload").result = none :=
  rfl

/-- C2 (amended): whenever a service operation settles with a result — which
it does for every handle in the `ok` or `invalid` state, and always for
`getWorkspaceHandle` — that result is `Right` carrying the provider's
successful answer unchanged, or `Left SERVICE_ERROR` produced by the service's
own checks, or `Left PROVIDER_ERROR` carrying exactly the `Left` value the
dispatched provider method returned. -/
theorem two_layer_error_model :
    (∀ (s : NewWorkspaceService) (pid wid : String),
      ((s.getWorkspaceHandle pid wid).result
          = some (.error (.serviceError .INVALID_PROVIDER))
        ∧ s.registeredProviders.lookup pid = none)
      ∨ (∃ p e, s.registeredProviders.lookup pid = some p
          ∧ p.getWorkspaceHandle wid = .error e
          ∧ (s.getWorkspaceHandle pid wid).result = some (.error (.providerError e)))
      ∨ (∃ p v, s.registeredProviders.lookup pid = some p
          ∧ p.getWorkspaceHandle wid = .ok v
          ∧ (s.getWorkspaceHandle pid wid).result = some (.ok v)))
    ∧     (∀ (s : NewWorkspaceService) (data : Workspace) (cid : String),
      ((s.getCollectionHandle (.ok data) cid).result
          = some (.error (.serviceError .INVALID_PROVIDER))
        ∧ s.registeredProviders.lookup data.providerID = none)
      ∨ (∃ p e, s.registeredProviders.lookup data.providerID = some p
          ∧ p.getCollectionHandle (.ok data) cid = .error e
          ∧ (s.getCollectionHandle (.ok data) cid).result = some (.error (.providerError e)))
      ∨ (∃ p v, s.registeredProviders.lookup data.providerID = some p
          ∧ p.getCollectionHandle (.ok data) cid = .ok v
          ∧ (s.getCollectionHandle (.ok data) cid).result = some (.ok v)))
    ∧ (∀ (s : NewWorkspaceService) (cid : String),
      (s.getCollectionHandle .invalid cid).result = some (.error (.serviceError .INVALID_HANDLE)))
    ∧     (∀ (s : NewWorkspaceService) (data : WorkspaceCollection) (rid : String),
      ((s.getRequestHandle (.ok data) rid).result
          = some (.error (.serviceError .INVALID_PROVIDER))
        ∧ s.registeredProviders.lookup data.providerID = none)
      ∨ (∃ p e, s.registeredProviders.lookup data.providerID = some p
          ∧ p.getRequestHandle (.ok data) rid = .error e
          ∧ (s.getRequestHandle (.ok data) rid).result = some (.error (.providerError e)))
      ∨ (∃ p v, s.registeredProviders.lookup data.providerID = some p
          ∧ p.getRequestHandle (.ok data) rid = .ok v
          ∧ (s.getRequestHandle (.ok data) rid).result = some (.ok v)))
    ∧ (∀ (s : NewWorkspaceService) (rid : String),
      (s.getRequestHandle .invalid rid).result = some (.error (.serviceError .INVALID_HANDLE)))
    ∧     (∀ (s : NewWorkspaceService) (data : Workspace) (name : String),
      ((s.createRESTRootCollection (.ok data) name).result
          = some (.error (.serviceError .INVALID_PROVIDER))
        ∧ s.registeredProviders.lookup data.providerID = none)
      ∨ (∃ p e, s.registeredProviders.lookup data.providerID = some p
          ∧ p.createRESTRootCollection (.ok data) name = .error e
          ∧ (s.createRESTRootCollection (.ok data) name).result = some (.error (.providerError e)))
      ∨ (∃ p v, s.registeredProviders.lookup data.providerID = some p
          ∧ p.createRESTRootCollection (.ok data) name = .ok v
          ∧ (s.createRESTRootCollection (.ok data) name).result = some (.ok v)))
    ∧ (∀ (s : NewWorkspaceService) (name : String),
      (s.createRESTRootCollection .invalid name).result = some (.error (.serviceError .INVALID_HANDLE)))
    ∧     (∀ (s : NewWorkspaceService) (data : WorkspaceCollection) (name : String),
      ((s.createRESTChildCollection (.ok data) name).result
          = some (.error (.serviceError .INVALID_PROVIDER))
        ∧ s.registeredProviders.lookup data.providerID = none)
      ∨ (∃ p e, s.registeredProviders.lookup data.providerID = some p
          ∧ p.createRESTChildCollection (.ok data) name = .error e
          ∧ (s.createRESTChildCollection (.ok data) name).result = some (.error (.providerError e)))
      ∨ (∃ p v, s.registeredProviders.lookup data.providerID = some p
          ∧ p.createRESTChildCollection (.ok data) name = .ok v
          ∧ (s.createRESTChildCollection (.ok data) name).result = some (.ok v)))
    ∧ (∀ (s : NewWorkspaceService) (name : String),
      (s.createRESTChildCollection .invalid name).result = some (.error (.serviceError .INVALID_HANDLE)))
    ∧     (∀ (s : NewWorkspaceService) (data : WorkspaceCollection) (name : String),
      ((s.editRESTRootCollection (.ok data) name).result
          = some (.error (.serviceError .INVALID_PROVIDER))
        ∧ s.registeredProviders.lookup data.providerID = none)
      ∨ (∃ p e, s.registeredProviders.lookup data.providerID = some p
          ∧ p.editRESTRootCollection (.ok data) name = .error e
          ∧ (s.editRESTRootCollection (.ok data) name).result = some (.error (.providerError e)))
      ∨ (∃ p v, s.registeredProviders.lookup data.providerID = some p
          ∧ p.editRESTRootCollection (.ok data) name = .ok v
          ∧ (s.editRESTRootCollection (.ok data) name).result = some (.ok v)))
    ∧ (∀ (s : NewWorkspaceService) (name : String),
      (s.editRESTRootCollection .invalid name).result = some (.error (.serviceError .INVALID_HANDLE)))
    ∧     (∀ (s : NewWorkspaceService) (data : WorkspaceCollection) (name : String),
      ((s.editRESTChildCollection (.ok data) name).result
          = some (.error (.serviceError .INVALID_PROVIDER))
        ∧ s.registeredProviders.lookup data.providerID = none)
      ∨ (∃ p e, s.registeredProviders.lookup data.providerID = some p
          ∧ p.editRESTChildCollection (.ok data) name = .error e
          ∧ (s.editRESTChildCollection (.ok data) name).result = some (.error (.providerError e)))
      ∨ (∃ p v, s.registeredProviders.lookup data.providerID = some p
          ∧ p.editRESTChildCollection (.ok data) name = .ok v
          ∧ (s.editRESTChildCollection (.ok data) name).result = some (.ok v)))
    ∧ (∀ (s : NewWorkspaceService) (name : String),
      (s.editRESTChildCollection .invalid name).result = some (.error (.serviceError .INVALID_HANDLE)))
    ∧     (∀ (s : NewWorkspaceService) (data : WorkspaceCollection) (props : UpdatedCollectionProperties),
      ((s.editRESTCollectionProperties (.ok data) props).result
          = some (.error (.serviceError .INVALID_PROVIDER))
        ∧ s.registeredProviders.lookup data.providerID = none)
      ∨ (∃ p e, s.registeredProviders.lookup data.providerID = some p
          ∧ p.editRESTCollectionProperties (.ok data) props = .error e
          ∧ (s.editRESTCollectionProperties (.ok data) props).result = some (.error (.providerError e)))
      ∨ (∃ p v, s.registeredProviders.lookup data.providerID = some p
          ∧ p.editRESTCollectionProperties (.ok data) props = .ok v
          ∧ (s.editRESTCollectionProperties (.ok data) props).result = some (.ok v)))
    ∧ (∀ (s : NewWorkspaceService) (props : UpdatedCollectionProperties),
      (s.editRESTCollectionProperties .invalid props).result = some (.error (.serviceError .INVALID_HANDLE)))
    ∧     (∀ (s : NewWorkspaceService) (data : WorkspaceCollection),
      ((s.removeRESTRootCollection (.ok data)).result
          = some (.error (.serviceError .INVALID_PROVIDER))
        ∧ s.registeredProviders.lookup data.providerID = none)
      ∨ (∃ p e, s.registeredProviders.lookup data.providerID = some p
          ∧ p.removeRESTRootCollection (.ok data) = .error e
          ∧ (s.removeRESTRootCollection (.ok data)).result = some (.error (.providerError e)))
      ∨ (∃ p v, s.registeredProviders.lookup data.providerID = some p
          ∧ p.removeRESTRootCollection (.ok data) = .ok v
          ∧ (s.removeRESTRootCollection (.ok data)).result = some (.ok v)))
    ∧ (∀ (s : NewWorkspaceService),
      (s.removeRESTRootCollection .invalid).result = some (.error (.serviceError .INVALID_HANDLE)))
    ∧     (∀ (s : NewWorkspaceService) (data : WorkspaceCollection),
      ((s.removeRESTChildCollection (.ok data)).result
          = some (.error (.serviceError .INVALID_PROVIDER))
        ∧ s.registeredProviders.lookup data.providerID = none)
      ∨ (∃ p e, s.registeredProviders.lookup data.providerID = some p
          ∧ p.removeRESTChildCollection (.ok data) = .error e
          ∧ (s.removeRESTChildCollection (.ok data)).result = some (.error (.providerError e)))
      ∨ (∃ p v, s.registeredProviders.lookup data.providerID = some p
          ∧ p.removeRESTChildCollection (.ok data) = .ok v
          ∧ (s.removeRESTChildCollection (.ok data)).result = some (.ok v)))
    ∧ (∀ (s : NewWorkspaceService),
      (s.removeRESTChildCollection .invalid).result = some (.error (.serviceError .INVALID_HANDLE)))
    ∧     (∀ (s : NewWorkspaceService) (data : WorkspaceCollection) (name : String),
      ((s.createRESTRequest (.ok data) name).result
          = some (.error (.serviceError .INVALID_PROVIDER))
        ∧ s.registeredProviders.lookup data.providerID = none)
      ∨ (∃ p e, s.registeredProviders.lookup data.providerID = some p
          ∧ p.createRESTRequest (.ok data) name = .error e
          ∧ (s.createRESTRequest (.ok data) name).result = some (.error (.providerError e)))
      ∨ (∃ p v, s.registeredProviders.lookup data.providerID = some p
          ∧ p.createRESTRequest (.ok data) name = .ok v
          ∧ (s.createRESTRequest (.ok data) name).result = some (.ok v)))
    ∧ (∀ (s : NewWorkspaceService) (name : String),
      (s.createRESTRequest .invalid name).result = some (.error (.serviceError .INVALID_HANDLE)))
    ∧     (∀ (s : NewWorkspaceService) (data : WorkspaceRequest),
      ((s.removeRESTRequest (.ok data)).result
          = some (.error (.serviceError .INVALID_PROVIDER))
        ∧ s.registeredProviders.lookup data.providerID = none)
      ∨ (∃ p e, s.registeredProviders.lookup data.providerID = some p
          ∧ p.removeRESTRequest (.ok data) = .error e
          ∧ (s.removeRESTRequest (.ok data)).result = some (.error (.providerError e)))
      ∨ (∃ p v, s.registeredProviders.lookup data.providerID = some p
          ∧ p.removeRESTRequest (.ok data) = .ok v
          ∧ (s.removeRESTRequest (.ok data)).result = some (.ok v)))
    ∧ (∀ (s : NewWorkspaceService),
      (s.removeRESTRequest .invalid).result = some (.error (.serviceError .INVALID_HANDLE)))
    ∧     (∀ (s : NewWorkspaceService) (data : WorkspaceRequest) (name : String),
      ((s.editRESTRequest (.ok data) name).result
          = some (.error (.serviceError .INVALID_PROVIDER))
        ∧ s.registeredProviders.lookup data.providerID = none)
      ∨ (∃ p e, s.registeredProviders.lookup data.providerID = some p
          ∧ p.editRESTRequest (.ok data) name = .error e
          ∧ (s.editRESTRequest (.ok data) name).result = some (.error (.providerError e)))
      ∨ (∃ p v, s.registeredProviders.lookup data.providerID = some p
          ∧ p.editRESTRequest (.ok data) name = .ok v
          ∧ (s.editRESTRequest (.ok data) name).result = some (.ok v)))
    ∧ (∀ (s : NewWorkspaceService) (name : String),
      (s.editRESTRequest .invalid name).result = some (.error (.serviceError .INVALID_HANDLE)))
    ∧     (∀ (s : NewWorkspaceService) (data : WorkspaceRequest) (req : HoppRESTRequest),
      ((s.saveRESTRequest (.ok data) req).result
          = some (.error (.serviceError .INVALID_PROVIDER))
        ∧ s.registeredProviders.lookup data.providerID = none)
      ∨ (∃ p e, s.registeredProviders.lookup data.providerID = some p
          ∧ p.saveRESTRequest (.ok data) req = .error e
          ∧ (s.saveRESTRequest (.ok data) req).result = some (.error (.providerError e)))
      ∨ (∃ p v, s.registeredProviders.lookup data.providerID = some p
          ∧ p.saveRESTRequest (.ok data) req = .ok v
          ∧ (s.saveRESTRequest (.ok data) req).result = some (.ok v)))
    ∧ (∀ (s : NewWorkspaceService) (req : HoppRESTRequest),
      (s.saveRESTRequest .invalid req).result = some (.error (.serviceError .INVALID_HANDLE)))
    ∧     (∀ (s : NewWorkspaceService) (data : WorkspaceCollection),
      ((s.getRESTCollectionChildrenView (.ok data)).result
          = some (.error (.serviceError .INVALID_PROVIDER))
        ∧ s.registeredProviders.lookup data.providerID = none)
      ∨ (∃ p e, s.registeredProviders.lookup data.providerID = some p
          ∧ p.getRESTCollectionChildrenView (.ok data) = .error e
          ∧ (s.getRESTCollectionChildrenView (.ok data)).result = some (.error (.providerError e)))
      ∨ (∃ p v, s.registeredProviders.lookup data.providerID = some p
          ∧ p.getRESTCollectionChildrenView (.ok data) = .ok v
          ∧ (s.getRESTCollectionChildrenView (.ok data)).result = some (.ok v)))
    ∧ (∀ (s : NewWorkspaceService),
      (s.getRESTCollectionChildrenView .invalid).result = some (.error (.serviceError .INVALID_HANDLE)))
    ∧     (∀ (s : NewWorkspaceService) (data : Workspace),
      ((s.getRESTRootCollectionView (.ok data)).result
          = some (.error (.serviceError .INVALID_PROVIDER))
        ∧ s.registeredProviders.lookup data.providerID = none)
      ∨ (∃ p e, s.registeredProviders.lookup data.providerID = some p
          ∧ p.getRESTRootCollectionView (.ok data) = .error e
          ∧ (s.getRESTRootCollectionView (.ok data)).result = some (.error (.providerError e)))
      ∨ (∃ p v, s.registeredProviders.lookup data.providerID = some p
          ∧ p.getRESTRootCollectionView (.ok data) = .ok v
          ∧ (s.getRESTRootCollectionView (.ok data)).result = some (.ok v)))
    ∧ (∀ (s : NewWorkspaceService),
      (s.getRESTRootCollectionView .invalid).result = some (.error (.serviceError .INVALID_HANDLE))) := by
  refine ⟨?_, ?_, ?_, ?_, ?_, ?_, ?_, ?_, ?_, ?_, ?_, ?_, ?_, ?_, ?_, ?_, ?_, ?_, ?_, ?_, ?_, ?_, ?_, ?_, ?_, ?_, ?_, ?_, ?_, ?_, ?_⟩
  · intro s pid wid
    rcases hl : s.registeredProviders.lookup pid with _ | p
    · exact Or.inl ⟨by simp [NewWorkspaceService.getWorkspaceHandle, hl], rfl⟩
    · rcases hm : p.getWorkspaceHandle wid with e | v
      · exact Or.inr (Or.inl ⟨p, e, rfl, hm,
          by simp [NewWorkspaceService.getWorkspaceHandle, hl, hm]⟩)
      · exact Or.inr (Or.inr ⟨p, v, rfl, hm,
          by simp [NewWorkspaceService.getWorkspaceHandle, hl, hm]⟩)
  · intro s data cid
    rcases hl : s.registeredProviders.lookup data.providerID with _ | p
    · exact Or.inl ⟨by simp [NewWorkspaceService.getCollectionHandle, hl], rfl⟩
    · rcases hm : p.getCollectionHandle (.ok data) cid with e | v
      · exact Or.inr (Or.inl ⟨p, e, rfl, hm, by simp [NewWorkspaceService.getCollectionHandle, hl, hm]⟩)
      · exact Or.inr (Or.inr ⟨p, v, rfl, hm, by simp [NewWorkspaceService.getCollectionHandle, hl, hm]⟩)
  · intro s cid
    rfl
  · intro s data rid
    rcases hl : s.registeredProviders.lookup data.providerID with _ | p
    · exact Or.inl ⟨by simp [NewWorkspaceService.getRequestHandle, hl], rfl⟩
    · rcases hm : p.getRequestHandle (.ok data) rid with e | v
      · exact Or.inr (Or.inl ⟨p, e, rfl, hm, by simp [NewWorkspaceService.getRequestHandle, hl, hm]⟩)
      · exact Or.inr (Or.inr ⟨p, v, rfl, hm, by simp [NewWorkspaceService.getRequestHandle, hl, hm]⟩)
  · intro s rid
    rfl
  · intro s data name
    rcases hl : s.registeredProviders.lookup data.providerID with _ | p
    · exact Or.inl ⟨by simp [NewWorkspaceService.createRESTRootCollection, hl], rfl⟩
    · rcases hm : p.createRESTRootCollection (.ok data) name with e | v
      · exact Or.inr (Or.inl ⟨p, e, rfl, hm, by simp [NewWorkspaceService.createRESTRootCollection, hl, hm]⟩)
      · exact Or.inr (Or.inr ⟨p, v, rfl, hm, by simp [NewWorkspaceService.createRESTRootCollection, hl, hm]⟩)
  · intro s name
    rfl
  · intro s data name
    rcases hl : s.registeredProviders.lookup data.providerID with _ | p
    · exact Or.inl ⟨by simp [NewWorkspaceService.createRESTChildCollection, hl], rfl⟩
    · rcases hm : p.createRESTChildCollection (.ok data) name with e | v
      · exact Or.inr (Or.inl ⟨p, e, rfl, hm, by simp [NewWorkspaceService.createRESTChildCollection, hl, hm]⟩)
      · exact Or.inr (Or.inr ⟨p, v, rfl, hm, by simp [NewWorkspaceService.createRESTChildCollection, hl, hm]⟩)
  · intro s name
    rfl
  · intro s data name
    rcases hl : s.registeredProviders.lookup data.providerID with _ | p
    · exact Or.inl ⟨by simp [NewWorkspaceService.editRESTRootCollection, hl], rfl⟩
    · rcases hm : p.editRESTRootCollection (.ok data) name with e | v
      · exact Or.inr (Or.inl ⟨p, e, rfl, hm, by simp [NewWorkspaceService.editRESTRootCollection, hl, hm]⟩)
      · exact Or.inr (Or.inr ⟨p, v, rfl, hm, by simp [NewWorkspaceService.editRESTRootCollection, hl, hm]⟩)
  · intro s name
    rfl
  · intro s data name
    rcases hl : s.registeredProviders.lookup data.providerID with _ | p
    · exact Or.inl ⟨by simp [NewWorkspaceService.editRESTChildCollection, hl], rfl⟩
    · rcases hm : p.editRESTChildCollection (.ok data) name with e | v
      · exact Or.inr (Or.inl ⟨p, e, rfl, hm, by simp [NewWorkspaceService.editRESTChildCollection, hl, hm]⟩)
      · exact Or.inr (Or.inr ⟨p, v, rfl, hm, by simp [NewWorkspaceService.editRESTChildCollection, hl, hm]⟩)
  · intro s name
    rfl
  · intro s data props
    rcases hl : s.registeredProviders.lookup data.providerID with _ | p
    · exact Or.inl ⟨by simp [NewWorkspaceService.editRESTCollectionProperties, hl], rfl⟩
    · rcases hm : p.editRESTCollectionProperties (.ok data) props with e | v
      · exact Or.inr (Or.inl ⟨p, e, rfl, hm, by simp [NewWorkspaceService.editRESTCollectionProperties, hl, hm]⟩)
      · exact Or.inr (Or.inr ⟨p, v, rfl, hm, by simp [NewWorkspaceService.editRESTCollectionProperties, hl, hm]⟩)
  · intro s props
    rfl
  · intro s data
    rcases hl : s.registeredProviders.lookup data.providerID with _ | p
    · exact Or.inl ⟨by simp [NewWorkspaceService.removeRESTRootCollection, hl], rfl⟩
    · rcases hm : p.removeRESTRootCollection (.ok data) with e | v
      · exact Or.inr (Or.inl ⟨p, e, rfl, hm, by simp [NewWorkspaceService.removeRESTRootCollection, hl, hm]⟩)
      · exact Or.inr (Or.inr ⟨p, v, rfl, hm, by simp [NewWorkspaceService.removeRESTRootCollection, hl, hm]⟩)
  · intro s
    rfl
  · intro s data
    rcases hl : s.registeredProviders.lookup data.providerID with _ | p
    · exact Or.inl ⟨by simp [NewWorkspaceService.removeRESTChildCollection, hl], rfl⟩
    · rcases hm : p.removeRESTChildCollection (.ok data) with e | v
      · exact Or.inr (Or.inl ⟨p, e, rfl, hm, by simp [NewWorkspaceService.removeRESTChildCollection, hl, hm]⟩)
      · exact Or.inr (Or.inr ⟨p, v, rfl, hm, by simp [NewWorkspaceService.removeRESTChildCollection, hl, hm]⟩)
  · intro s
    rfl
  · intro s data name
    rcases hl : s.registeredProviders.lookup data.providerID with _ | p
    · exact Or.inl ⟨by simp [NewWorkspaceService.createRESTRequest, hl], rfl⟩
    · rcases hm : p.createRESTRequest (.ok data) name with e | v
      · exact Or.inr (Or.inl ⟨p, e, rfl, hm, by simp [NewWorkspaceService.createRESTRequest, hl, hm]⟩)
      · exact Or.inr (Or.inr ⟨p, v, rfl, hm, by simp [NewWorkspaceService.createRESTRequest, hl, hm]⟩)
  · intro s name
    rfl
  · intro s data
    rcases hl : s.registeredProviders.lookup data.providerID with _ | p
    · exact Or.inl ⟨by simp [NewWorkspaceService.removeRESTRequest, hl], rfl⟩
    · rcases hm : p.removeRESTRequest (.ok data) with e | v
      · exact Or.inr (Or.inl ⟨p, e, rfl, hm, by simp [NewWorkspaceService.removeRESTRequest, hl, hm]⟩)
      · exact Or.inr (Or.inr ⟨p, v, rfl, hm, by simp [NewWorkspaceService.removeRESTRequest, hl, hm]⟩)
  · intro s
    rfl
  · intro s data name
    rcases hl : s.registeredProviders.lookup data.providerID with _ | p
    · exact Or.inl ⟨by simp [NewWorkspaceService.editRESTRequest, hl], rfl⟩
    · rcases hm : p.editRESTRequest (.ok data) name with e | v
      · exact Or.inr (Or.inl ⟨p, e, rfl, hm, by simp [NewWorkspaceService.editRESTRequest, hl, hm]⟩)
      · exact Or.inr (Or.inr ⟨p, v, rfl, hm, by simp [NewWorkspaceService.editRESTRequest, hl, hm]⟩)
  · intro s name
    rfl
  · intro s data req
    rcases hl : s.registeredProviders.lookup data.providerID with _ | p
    · exact Or.inl ⟨by simp [NewWorkspaceService.saveRESTRequest, hl], rfl⟩
    · rcases hm : p.saveRESTRequest (.ok data) req with e | v
      · exact Or.inr (Or.inl ⟨p, e, rfl, hm, by simp [NewWorkspaceService.saveRESTRequest, hl, hm]⟩)
      · exact Or.inr (Or.inr ⟨p, v, rfl, hm, by simp [NewWorkspaceService.saveRESTRequest, hl, hm]⟩)
  · intro s req
    rfl
  · intro s data
    rcases hl : s.registeredProviders.lookup data.providerID with _ | p
    · exact Or.inl ⟨by simp [NewWorkspaceService.getRESTCollectionChildrenView, hl], rfl⟩
    · rcases hm : p.getRESTCollectionChildrenView (.ok data) with e | v
      · exact Or.inr (Or.inl ⟨p, e, rfl, hm, by simp [NewWorkspaceService.getRESTCollectionChildrenView, hl, hm]⟩)
      · exact Or.inr (Or.inr ⟨p, v, rfl, hm, by simp [NewWorkspaceService.getRESTCollectionChildrenView, hl, hm]⟩)
  · intro s
    rfl
  · intro s data
    rcases hl : s.registeredProviders.lookup data.providerID with _ | p
    · exact Or.inl ⟨by simp [NewWorkspaceService.getRESTRootCollectionView, hl], rfl⟩
    · rcases hm : p.getRESTRootCollectionView (.ok data) with e | v
      · exact Or.inr (Or.inl ⟨p, e, rfl, hm, by simp [NewWorkspaceService.getRESTRootCollectionView, hl, hm]⟩)
      · exact Or.inr (Or.inr ⟨p, v, rfl, hm, by simp [NewWorkspaceService.getRESTRootCollectionView, hl, hm]⟩)
  · intro s
    rfl

/-! ### C10 -/

/-- C10: `workspaceSelectorComponents` is obtained from some reordering of the
registered providers that is sorted by descending effective selector priority
(`decorPriority`, which is 0 for a provider lacking a decor or a priority) by
collecting the `workspaceSelectorComponent` of exactly those providers whose
decor defines one, in that order. -/
theorem workspaceSelectorComponents_sorted_desc (s : NewWorkspaceService) :
    ∃ ps : List WorkspaceProvider,
      ps.Perm (s.registeredProviders.map Prod.snd)
      ∧ ps.Pairwise (fun a b => decorPriority b ≤ decorPriority a)
      ∧ s.workspaceSelectorComponents
          = ps.filterMap
              (fun w => w.workspaceDecor.bind WorkspaceDecor.workspaceSelectorComponent) := by
  refine ⟨(s.registeredProviders.map Prod.snd).mergeSort
      (fun a b => decorPriority b ≤ decorPriority a), ?_, ?_, rfl⟩
  · exact List.mergeSort_perm _ _
  · exact List.Pairwise.imp (fun hab => by simpa using hab)
      (List.sorted_mergeSort
        (fun a b c h1 h2 => by
          simp only [decide_eq_true_eq] at h1 h2 ⊢
          exact le_trans h2 h1)
        (fun a b => by
          simp only [Bool.or_eq_true, decide_eq_true_eq]
          exact le_total (decorPriority b) (decorPriority a))
        (s.registeredProviders.map Prod.snd))

/-- Concrete run of the C4 theorem: the `invalid` tag test recognises the
invalidated marker of a workspace handle state. -/
theorem handle_state_trichotomy_witness :
    HandleState.typeIsInvalid (HandleState.invalid : HandleState Workspace) = true :=
  ((handle_state_trichotomy Workspace).2.2.1 HandleState.invalid).mpr rfl
